import Mathlib

/-!
Verification development for the marketing-campaign backend services
(`campaign_timeline_optimizer.py`, `content_distribution_scheduler.py`,
`outreach_call_scheduler.py`).

Modelling conventions, used uniformly below:

* Calendar dates (`YYYY-MM-DD` strings manipulated through
  `datetime.strptime` / `strftime` / `timedelta`) are modelled as integer
  day ordinals.  `strptime`/`strftime` form a bijection between valid
  date strings and ordinals, `(b - a).days` is `b - a`, `a + timedelta(days=d)`
  is `a + d`, and lexicographic comparison of two `YYYY-MM-DD` strings agrees
  with the ordinal order, so sorting by the date string is sorting by the
  ordinal.
* Python `float` arithmetic on the small quantities appearing here
  (half-integer posting frequencies, day counts divided by 7, slot
  fractions) is modelled by exact rational arithmetic.  `int(x)` is
  truncation toward zero, `ratTrunc` below.  For every truncation that the
  claims touch, the exact rational value is at distance at least `1/14`
  from any integer unless it is exactly an integer that the float
  computation also attains exactly, so the float and rational models agree.
* Python exceptions are modelled with `Except PyErr`; `dict`-returning
  functions return structures whose fields are the keys actually read or
  written by the code.  A `try/except` block is a `match` on the body's
  `Except` result.
* The LLM planner call (`agent.run` followed by `json.loads`) is an
  external input: it is passed to the embedded service entry points as a
  value of type `Except PyErr (Option β)` — `.error e` models the agent
  call raising, `.ok none` models raw text on which `json.loads` raises
  `JSONDecodeError`, and `.ok (some d)` models successfully parsed data `d`.
* `random.choice pool` (content_distribution_scheduler) is modelled by an
  explicit chooser function argument; the properties proved do not depend
  on which element is chosen.
-/

/-- Python exception kinds distinguished by the embedding. -/
inductive PyErr where
  | zeroDivisionError
  | nameError
  | runtimeError
deriving Repr, DecidableEq

/-- Python `int(x)` applied to a real value: truncation toward zero.
On a rational `q = num/den` (with `den > 0`) this is T-division of the
numerator by the denominator. -/
def ratTrunc (q : ℚ) : ℤ :=
  Int.tdiv q.num (q.den : ℤ)

/-- Python `needle in hay` on strings: substring containment. -/
def containsSub (needle hay : String) : Bool :=
  decide (needle.data <:+: hay.data)

/-- Python `s.lower()` (characterwise ASCII lowering; the identifiers the
services compare are ASCII). -/
def strLower (s : String) : String :=
  String.mk (s.data.map Char.toLower)

/-- Python `lst[i % len(lst)]`: raises `ZeroDivisionError` when the list is
empty (modulo by zero), otherwise indexes at `i % len(lst)`. -/
def pyIndexMod {α : Type} (l : List α) (i : ℕ) : Except PyErr α :=
  if h : l.length = 0 then Except.error PyErr.zeroDivisionError
  else Except.ok (l.get ⟨i % l.length, Nat.mod_lt _ (Nat.pos_of_ne_zero h)⟩)

namespace CTO

/-! Embedding of `backend/campaign_timeline_optimizer.py`. -/

/-- `CampaignDuration` input model; dates as day ordinals. -/
structure CampaignDuration where
  start_date : ℤ
  end_date : ℤ
deriving Repr, DecidableEq

/-- `ContentInventory` input model. -/
structure ContentInventory where
  content_id : String
  content_type : String
  platform : String
deriving Repr, DecidableEq, Inhabited

/-- `OptimalPostingTimes` input model. -/
structure OptimalPostingTimes where
  platform : String
  time_slots : List String
deriving Repr, DecidableEq

/-- `PostingFrequency` input model. -/
structure PostingFrequency where
  min_posts_per_day : ℤ
  max_posts_per_day : ℤ
deriving Repr, DecidableEq

/-- `KeyDate` input model; date as a day ordinal. -/
structure KeyDate where
  date : ℤ
  event : String
  priority : List String
deriving Repr, DecidableEq

/-- `CampaignTimelineRequest` input model.  `budget_constraints` is a free-form
dict that no embedded computation reads; it is omitted. -/
structure CampaignTimelineRequest where
  campaign_duration : CampaignDuration
  content_inventory : List ContentInventory
  audience_segments : List String
  optimal_posting_times : OptimalPostingTimes
  posting_frequency : PostingFrequency
  key_dates : List KeyDate
deriving Repr, DecidableEq

/-- A timeline-slot dict.  The three trailing `Option` fields are the
derived keys added by `process_timeline_data`; slots built by the fallback
builder (or arriving from the planner) do not carry them yet (`none`).
The slot id `slot_{n:03d}` is modelled by its numeric part. -/
structure TimelineSlot where
  timeline_slot_id : ℕ
  scheduled_date : ℤ
  content_type : String
  platform : String
  target_segment : String
  priority : List String
  optimal_time : String
  reasoning : String
  campaign_phase : Option String := none
  engagement_score : Option ℚ := none
  content_priority : Option String := none
deriving Repr, DecidableEq, Inhabited

/-- The `timeline_insights` dict.  `process_timeline_data` reads only the
`engagement_prediction` key from it (via `.get` with a default), hence the
`Option`; the counting fields are those written by the fallback builder. -/
structure TimelineInsights where
  total_slots : ℕ
  high_priority_slots : ℕ
  platform_distribution : List (String × ℕ)
  audience_coverage : List (String × ℕ)
  engagement_prediction : Option String
deriving Repr, DecidableEq

/-- Shape of the data consumed by `process_timeline_data`: the parsed
planner JSON or the fallback builder's dict, after the `.get` defaults. -/
structure RawTimeline where
  optimized_timeline : List TimelineSlot
  timeline_insights : TimelineInsights
deriving Repr, DecidableEq

/-- Python `dict` counting idiom `m[k] = m.get(k, 0) + 1` on an
insertion-ordered association list. -/
def incrCount : List (String × ℕ) → String → List (String × ℕ)
  | [], k => [(k, 1)]
  | (a, n) :: t, k => if a = k then (a, n + 1) :: t else (a, n) :: incrCount t k

/-- Lines 464–493 of `campaign_timeline_optimizer.py`: the slot-count
computation of `create_fallback_timeline`.  `weeks_in_campaign = total_days/7`,
`avg = (min+max)/2` (true division), `posts_per_week = avg*7` capped at 5 when
`min_posts_per_day >= 1` and at 3 otherwise, `int(...)` truncation, then
`max(min_slots, min(needed, max_slots))` with `min_slots = len(key_dates)+2`
and `max_slots = min(20, total_days)`. -/
def fallbackTotalSlots (total_days min_posts_per_day max_posts_per_day : ℤ)
    (num_key_dates : ℕ) : ℤ :=
  let weeks_in_campaign : ℚ := (total_days : ℚ) / 7
  let avg_posts_per_day : ℚ := ((min_posts_per_day : ℚ) + (max_posts_per_day : ℚ)) / 2
  let posts_per_week : ℚ := avg_posts_per_day * 7
  let posts_per_week : ℚ :=
    if 1 ≤ min_posts_per_day then min posts_per_week 5 else min posts_per_week 3
  let total_slots_needed : ℤ := ratTrunc (weeks_in_campaign * posts_per_week)
  let min_slots : ℤ := (num_key_dates : ℤ) + 2
  let max_slots : ℤ := min 20 total_days
  max min_slots (min total_slots_needed max_slots)

/-- Line 505: `day_offset = int((slot_id - 1) * total_days / total_slots_needed)`. -/
def fallbackDayOffset (total_days total_slots : ℤ) (slot_id : ℕ) : ℤ :=
  ratTrunc (((slot_id : ℚ) - 1) * (total_days : ℚ) / (total_slots : ℚ))

/-- Lines 498–500 and 518: the `key_dates_map` built by the fallback builder
(later entries override earlier ones, as for a Python dict) queried with
default `["medium"]`. -/
def lookupKeyDatePriority (key_dates : List KeyDate) (d : ℤ) : List String :=
  match key_dates.reverse.find? (fun kd => kd.date = d) with
  | some kd => kd.priority
  | none => ["medium"]

/-- Lines 503–534: the body of the slot loop of `create_fallback_timeline`
for a single `slot_id`.  Indexing `content_inventory`, `audience_segments`
and `time_slots` by `slot_id % len(...)` raises `ZeroDivisionError` on an
empty list. -/
def mkFallbackSlot (req : CampaignTimelineRequest) (total_days total_slots : ℤ)
    (slot_id : ℕ) : Except PyErr TimelineSlot := do
  let start_date := req.campaign_duration.start_date
  let end_date := req.campaign_duration.end_date
  let day_offset := fallbackDayOffset total_days total_slots slot_id
  let scheduled_date := start_date + day_offset
  let scheduled_date := if end_date < scheduled_date then end_date else scheduled_date
  let content_item ← pyIndexMod req.content_inventory slot_id
  let audience_segment ← pyIndexMod req.audience_segments slot_id
  let priority := lookupKeyDatePriority req.key_dates scheduled_date
  let optimal_time ← pyIndexMod req.optimal_posting_times.time_slots slot_id
  Except.ok
    { timeline_slot_id := slot_id
      scheduled_date := scheduled_date
      content_type := content_item.content_type
      platform := content_item.platform
      target_segment := audience_segment
      priority := priority
      optimal_time := optimal_time
      reasoning := "Distributed slot " ++ toString slot_id }

/-- Lines 457–561: `create_fallback_timeline`.  The `upcoming_events` and
`audience_patterns` parameters of the Python function are never read by its
body and are omitted.  The final `timeline_slots.sort(key=scheduled_date)`
is a stable sort on the date string, i.e. on the ordinal. -/
def create_fallback_timeline (req : CampaignTimelineRequest) :
    Except PyErr RawTimeline := do
  let start_date := req.campaign_duration.start_date
  let end_date := req.campaign_duration.end_date
  let total_days : ℤ := end_date - start_date + 1
  let total_slots_needed : ℤ :=
    fallbackTotalSlots total_days req.posting_frequency.min_posts_per_day
      req.posting_frequency.max_posts_per_day req.key_dates.length
  let slots ← (List.range total_slots_needed.toNat).mapM
    (fun k => mkFallbackSlot req total_days total_slots_needed (k + 1))
  let timeline_slots :=
    slots.mergeSort (fun a b => decide (a.scheduled_date ≤ b.scheduled_date))
  let high_priority_slots :=
    (timeline_slots.filter (fun s => s.priority.contains "high")).length
  let platform_distribution :=
    timeline_slots.foldl (fun m s => incrCount m s.platform) []
  let audience_coverage :=
    timeline_slots.foldl (fun m s => incrCount m s.target_segment) []
  Except.ok
    { optimized_timeline := timeline_slots
      timeline_insights :=
        { total_slots := timeline_slots.length
          high_priority_slots := high_priority_slots
          platform_distribution := platform_distribution
          audience_coverage := audience_coverage
          engagement_prediction :=
            some "Well-distributed timeline with strategic spacing" } }

/-- Lines 406–423: `determine_campaign_phase`.  The float thresholds `0.3`
and `0.7` are modelled exactly; with ordinal dates the `strptime` calls
cannot fail, so the `except` branch returning `"unknown_phase"` is dead. -/
def determine_campaign_phase (scheduled_date : ℤ) (req : CampaignTimelineRequest) :
    String :=
  let total_days := req.campaign_duration.end_date - req.campaign_duration.start_date
  let days_from_start := scheduled_date - req.campaign_duration.start_date
  if (days_from_start : ℚ) < (total_days : ℚ) * (3 / 10) then "launch_phase"
  else if (days_from_start : ℚ) < (total_days : ℚ) * (7 / 10) then "growth_phase"
  else "conclusion_phase"

/-- Lines 425–444: `calculate_engagement_score` (floats as exact rationals). -/
def calculate_engagement_score (slot : TimelineSlot) (req : CampaignTimelineRequest) :
    ℚ :=
  let score : ℚ := 1 / 2
  let score :=
    if slot.priority.contains "high" then score + 3 / 10
    else if slot.priority.contains "medium" then score + 1 / 10
    else score
  let score :=
    if slot.platform = req.optimal_posting_times.platform then score + 1 / 5
    else score
  let score :=
    if req.optimal_posting_times.time_slots.contains slot.optimal_time then
      score + 1 / 5
    else score
  min 1 score

/-- Lines 446–455: `determine_content_priority`. -/
def determine_content_priority (slot : TimelineSlot)
    (_req : CampaignTimelineRequest) : String :=
  if slot.priority.contains "high" then "critical"
  else if slot.priority.contains "medium" then "important"
  else "standard"

/-- Lines 360–367: the slot-enhancement step of `process_timeline_data`:
`{**slot, "campaign_phase": ..., "engagement_score": ..., "content_priority": ...}`.
The three derived keys are overwritten; every base key is kept. -/
def enhanceSlot (req : CampaignTimelineRequest) (slot : TimelineSlot) :
    TimelineSlot :=
  { slot with
    campaign_phase := some (determine_campaign_phase slot.scheduled_date req)
    engagement_score := some (calculate_engagement_score slot req)
    content_priority := some (determine_content_priority slot req) }

/-- The dict returned by `process_timeline_data` (lines 383–404): enhanced
slots plus recomputed insights.  `timeline_efficiency` keeps the numeric
ratio `high/total*100` whose f-string formatting is not modelled; the tail
of the Python dict echoes the request verbatim and is represented by the
`request_echo` field. -/
structure ProcessedTimeline where
  optimized_timeline : List TimelineSlot
  total_slots : ℕ
  high_priority_slots : ℕ
  platform_distribution : List (String × ℕ)
  audience_coverage : List (String × ℕ)
  engagement_prediction : String
  timeline_efficiency : ℚ
  content_diversity : ℕ
  platform_coverage : ℕ
  request_echo : CampaignTimelineRequest
deriving Repr, DecidableEq

/-- Lines 352–404: `process_timeline_data`.  The division
`high_priority_slots/total_slots*100` raises `ZeroDivisionError` when the
timeline list is empty; everything else is total. -/
def process_timeline_data (raw : RawTimeline) (req : CampaignTimelineRequest) :
    Except PyErr ProcessedTimeline := do
  let enhanced_slots := raw.optimized_timeline.map (enhanceSlot req)
  let total_slots := enhanced_slots.length
  let high_priority_slots :=
    (enhanced_slots.filter (fun s => s.priority.contains "high")).length
  let platform_distribution :=
    enhanced_slots.foldl (fun m s => incrCount m s.platform) []
  let audience_coverage :=
    enhanced_slots.foldl (fun m s => incrCount m s.target_segment) []
  let timeline_efficiency : ℚ ←
    if total_slots = 0 then Except.error PyErr.zeroDivisionError
    else Except.ok ((high_priority_slots : ℚ) / (total_slots : ℚ) * 100)
  Except.ok
    { optimized_timeline := enhanced_slots
      total_slots := total_slots
      high_priority_slots := high_priority_slots
      platform_distribution := platform_distribution
      audience_coverage := audience_coverage
      engagement_prediction :=
        raw.timeline_insights.engagement_prediction.getD "High engagement expected"
      timeline_efficiency := timeline_efficiency
      content_diversity := (enhanced_slots.map (fun s => s.content_type)).dedup.length
      platform_coverage := platform_distribution.length
      request_echo := req }

/-- The `outputs` dict of a `CampaignTimelineResponse`: the success path
returns the processed timeline, the exception handler returns the raw
fallback dict unprocessed. -/
inductive TimelineOutputs where
  | processed (p : ProcessedTimeline)
  | raw (r : RawTimeline)
deriving Repr, DecidableEq

/-- `CampaignTimelineResponse` output model. -/
structure CampaignTimelineResponse where
  outputs : TimelineOutputs
  execution_status : String
deriving Repr, DecidableEq

/-- Lines 241–350: `optimize_campaign_timeline`.  `planner` abstracts the
agent call plus `json.loads` (see the module conventions).  On parse
failure the fallback data is substituted inside the outer `try` and the
function continues to the `"success"` return; any exception inside the
`try` reaches the handler, which rebuilds the fallback and returns
`"partial_success"` — if that rebuild itself raises, the exception
propagates to the caller. -/
def optimize_campaign_timeline (req : CampaignTimelineRequest)
    (planner : Except PyErr (Option RawTimeline)) :
    Except PyErr CampaignTimelineResponse :=
  let tryBody : Except PyErr CampaignTimelineResponse := do
    let content ← planner
    let optimized_data ←
      match content with
      | some d => Except.ok d
      | none => create_fallback_timeline req
    let processed ← process_timeline_data optimized_data req
    Except.ok
      { outputs := TimelineOutputs.processed processed
        execution_status := "success" }
  match tryBody with
  | Except.ok r => Except.ok r
  | Except.error _ =>
    match create_fallback_timeline req with
    | Except.ok fb =>
      Except.ok
        { outputs := TimelineOutputs.raw fb, execution_status := "partial_success" }
    | Except.error e => Except.error e

/-- Observable outcome of a call: the `execution_status` of a returned
response, or a marker when an exception escapes to the caller. -/
def statusOf : Except PyErr CampaignTimelineResponse → String
  | Except.ok r => r.execution_status
  | Except.error _ => "uncaught exception"

/-- Number of timeline slots in a fallback-builder result (0 if it raised). -/
def timelineSlotCount : Except PyErr RawTimeline → ℕ
  | Except.ok t => t.optimized_timeline.length
  | Except.error _ => 0

end CTO

namespace CDS

/-! Embedding of `backend/content_distribution_scheduler.py` (the parts the
claims touch: `match_content_to_timeline`, lines 160–264). -/

/-- `OptimizedTimeline` input model (a timeline slot fed to the scheduler). -/
structure OptimizedTimeline where
  timeline_slot_id : String
  scheduled_date : ℤ
  content_type : String
  platform : String
  target_segment : String
  priority : List String
  optimal_time : String
  reasoning : String
deriving Repr, DecidableEq, Inhabited

/-- `GeneratedCopy` input model. -/
structure GeneratedCopy where
  copy_id : String
  copy_text : String
  word_count : ℕ
  hashtags : List String
  emojis : List String
deriving Repr, DecidableEq, Inhabited

/-- `GeneratedImage` input model (the free-form `metadata` dict, which no
embedded computation reads, is omitted). -/
structure GeneratedImage where
  image_id : String
  image_url : String
deriving Repr, DecidableEq, Inhabited

/-- Lines 177–184: the `copy_pools` dict, keyed by content type; `none`
models `content_type not in copy_pools`. -/
def copyPoolFor (copies : List GeneratedCopy) (content_type : String) :
    Option (List GeneratedCopy) :=
  if content_type = "social_caption" then
    some (copies.filter (fun c =>
      containsSub "social" (strLower c.copy_id) || containsSub "caption" (strLower c.copy_id)))
  else if content_type = "ad_copy" then
    some (copies.filter (fun c => containsSub "ad" (strLower c.copy_id)))
  else if content_type = "blog_post" then
    some (copies.filter (fun c => containsSub "blog" (strLower c.copy_id)))
  else if content_type = "email" then
    some (copies.filter (fun c => containsSub "email" (strLower c.copy_id)))
  else if content_type = "educational" then
    some (copies.filter (fun c => containsSub "educational" (strLower c.copy_id)))
  else if content_type = "general" then some copies
  else none

/-- Lines 199–207: copy selection for one slot.  `random.choice` is the
`choice` argument (see module conventions); the match score contribution is
`0.4` from a typed pool and `0.2` from the general pool. -/
def chooseCopyGeneral (copies : List GeneratedCopy)
    (choice : List GeneratedCopy → GeneratedCopy) : Option GeneratedCopy × ℚ :=
  if copies.isEmpty then (none, 0) else (some (choice copies), 1 / 5)

/-- Copy selection dispatch: a nonempty typed pool wins, otherwise the
general pool (which is the full copies list). -/
def chooseCopy (copies : List GeneratedCopy)
    (choice : List GeneratedCopy → GeneratedCopy) (content_type : String) :
    Option GeneratedCopy × ℚ :=
  match copyPoolFor copies content_type with
  | some pool =>
    if pool.isEmpty then chooseCopyGeneral copies choice
    else (some (choice pool), 2 / 5)
  | none => chooseCopyGeneral copies choice

/-- Lines 213–217: images per slot by platform (2 for Instagram/Facebook,
1 otherwise; substring test on the lowercased platform). -/
def slotMaxImages (platform : String) : ℕ :=
  let p := (strLower platform)
  if containsSub "instagram" p || containsSub "facebook" p then 2 else 1

/-- One matched slot: the slot dict plus assigned copy, images and score. -/
structure MatchedSlot where
  slot : OptimizedTimeline
  assigned_copy : Option GeneratedCopy
  assigned_images : List GeneratedImage
  matching_score : ℚ
deriving Repr, DecidableEq

/-- The dict returned by `match_content_to_timeline` (the
`content_utilization` sub-dict is flattened into the last four fields). -/
structure ContentMatching where
  matched_slots : List MatchedSlot
  unmatched_slots : List OptimizedTimeline
  copies_used : ℕ
  images_used : ℕ
  total_copies : ℕ
  total_images : ℕ
deriving Repr, DecidableEq

/-- Mutable state of the slot loop of `match_content_to_timeline`. -/
structure MatchState where
  used_image_ids : List String
  matched_slots : List MatchedSlot
  unmatched_slots : List OptimizedTimeline
  copies_used : ℕ
  images_used : ℕ
deriving Repr, DecidableEq

/-- `used_image_ids.add(img.image_id)`: set insertion (membership and size
are all the code observes, so an insertion-ordered duplicate-free list is a
faithful model of the Python set). -/
def addUsedId (used : List String) (img : GeneratedImage) : List String :=
  if img.image_id ∈ used then used else img.image_id :: used

/-- Lines 219–247: image assignment for one slot.  First pass hands out
still-unused images; once every pool image has been used once
(`len(used) >= len(available)`) it cycles from index
`cycle_count % len(available)`; the final branch is the code's fallback for
the degenerate case of duplicate ids.  Returns the assigned images and the
updated `used_image_ids` (only the first-pass branch adds to the set). -/
def assignImages (available : List GeneratedImage) (used : List String)
    (cycle_count : ℕ) (max_images : ℕ) : List GeneratedImage × List String :=
  if available.isEmpty then ([], used)
  else
    let unused := available.filter (fun img => !(used.contains img.image_id))
    if !unused.isEmpty then
      let assigned := unused.take (min max_images unused.length)
      (assigned, assigned.foldl addUsedId used)
    else if available.length ≤ used.length then
      let start_index := cycle_count % available.length
      let n := min max_images available.length
      ((List.range n).map
        (fun i => available.getD ((start_index + i) % available.length) default),
        used)
    else
      (available.take (min max_images available.length), used)

/-- The body of the `for slot in timeline_slots` loop (lines 190–262).
`cycle_count` (line 234) counts the already-matched slots that carry at
least one image. -/
def matchStep (copies : List GeneratedCopy)
    (choice : List GeneratedCopy → GeneratedCopy)
    (available : List GeneratedImage) (st : MatchState)
    (slot : OptimizedTimeline) : MatchState :=
  let content_type := (strLower slot.content_type)
  let copyScore := chooseCopy copies choice content_type
  let max_images := slotMaxImages slot.platform
  let cycle_count :=
    (st.matched_slots.filter (fun m => !m.assigned_images.isEmpty)).length
  let assigned := assignImages available st.used_image_ids cycle_count max_images
  let score2 :=
    if !assigned.1.isEmpty then copyScore.2 + 3 / 10 else copyScore.2
  match copyScore.1 with
  | some c =>
    { st with
      used_image_ids := assigned.2
      matched_slots := st.matched_slots ++
        [{ slot := slot, assigned_copy := some c, assigned_images := assigned.1
           matching_score := score2 }]
      copies_used := st.copies_used + 1
      images_used := st.images_used + assigned.1.length }
  | none =>
    { st with
      used_image_ids := assigned.2
      unmatched_slots := st.unmatched_slots ++ [slot] }

/-- Lines 160–264: `match_content_to_timeline`. -/
def match_content_to_timeline (timeline_slots : List OptimizedTimeline)
    (copies : List GeneratedCopy) (images : Option (List GeneratedImage))
    (choice : List GeneratedCopy → GeneratedCopy) : ContentMatching :=
  let available_images := images.getD []
  let final := timeline_slots.foldl (matchStep copies choice available_images)
    { used_image_ids := [], matched_slots := [], unmatched_slots := []
      copies_used := 0, images_used := 0 }
  { matched_slots := final.matched_slots
    unmatched_slots := final.unmatched_slots
    copies_used := final.copies_used
    images_used := final.images_used
    total_copies := copies.length
    total_images := available_images.length }

end CDS

namespace OCS

/-! Embedding of `backend/outreach_call_scheduler.py`. -/

/-- `DiscoveredLead` input model; `qualification_score` is an exact
rational, `last_contact_date` a day ordinal. -/
structure DiscoveredLead where
  lead_id : String
  company_name : String
  contact_name : String
  email : String
  phone : Option String
  job_title : String
  industry : String
  company_size : String
  location : String
  qualification_score : ℚ
  lead_source : String
  last_contact_date : Option ℤ := none
  notes : Option String := none
deriving Repr, DecidableEq, Inhabited

/-- `CallWindowPreferences` input model; avoid dates as day ordinals. -/
structure CallWindowPreferences where
  timezone : String
  preferred_hours : List String
  avoid_dates : List ℤ
deriving Repr, DecidableEq

/-- `CampaignDuration` input model of the call scheduler. -/
structure CampaignDuration where
  start_date : ℤ
  end_date : ℤ
deriving Repr, DecidableEq

/-- `PrioritizationCriteria` input model. -/
structure PrioritizationCriteria where
  qualification_score_threshold : ℚ
  priority_segments : List String
deriving Repr, DecidableEq

/-- `OutreachCallRequest` input model. -/
structure OutreachCallRequest where
  discovered_leads : List DiscoveredLead
  call_window_preferences : CallWindowPreferences
  campaign_duration : CampaignDuration
  calls_per_day : ℤ
  prioritization_criteria : PrioritizationCriteria
deriving Repr, DecidableEq

/-- Lines 166–172 of `outreach_call_scheduler.py`: the industry component of
`get_lead_priority`.  Scanning `enumerate(priority_segments)`, the first
segment that is a substring of the lowercased industry yields
`len(priority_segments) - i`; no match yields `0` (so unlisted industries
rank last once negated). -/
def industryPriorityAux (total : ℕ) (industry_lower : String) :
    ℕ → List String → ℕ
  | _, [] => 0
  | i, seg :: rest =>
    if containsSub (strLower seg) industry_lower then total - i
    else industryPriorityAux total industry_lower (i + 1) rest

/-- The `industry_priority` value of a lead. -/
def industryPriority (priority_segments : List String) (industry : String) : ℕ :=
  industryPriorityAux priority_segments.length (strLower industry) 0 priority_segments

/-- Lines 166–179: the ascending lexicographic order on the sort key
`(-industry_priority, -qualification_score)` used by `sorted`; `a` sorts no
later than `b` iff `a` has the strictly larger industry priority, or equal
priorities and at least the score of `b`. -/
def leadSortLE (priority_segments : List String) (a b : DiscoveredLead) : Bool :=
  let pa := industryPriority priority_segments a.industry
  let pb := industryPriority priority_segments b.industry
  decide (pb < pa ∨ (pa = pb ∧ b.qualification_score ≤ a.qualification_score))

/-- The dict returned by `prioritize_leads` (the `priority_distribution`
counts are the lengths of the three bucket lists). -/
structure LeadPrioritization where
  total_leads : ℕ
  qualified_leads : ℕ
  prioritized_leads : List DiscoveredLead
  high_priority_leads : List DiscoveredLead
  medium_priority_leads : List DiscoveredLead
  low_priority_leads : List DiscoveredLead
deriving Repr, DecidableEq

/-- Lines 157–206: `prioritize_leads`.  `sorted` is a stable mergesort on
the key above, matching Python's sorting guarantees; the priority-level
buckets are an order-preserving partition of the sorted list. -/
def prioritize_leads (leads : List DiscoveredLead)
    (criteria : PrioritizationCriteria) : LeadPrioritization :=
  let qualified := leads.filter
    (fun l => decide (criteria.qualification_score_threshold ≤ l.qualification_score))
  let prioritized := qualified.mergeSort (leadSortLE criteria.priority_segments)
  { total_leads := leads.length
    qualified_leads := qualified.length
    prioritized_leads := prioritized
    high_priority_leads :=
      prioritized.filter (fun l => decide ((80 : ℚ) ≤ l.qualification_score))
    medium_priority_leads :=
      prioritized.filter (fun l =>
        decide ((60 : ℚ) ≤ l.qualification_score ∧ l.qualification_score < 80))
    low_priority_leads :=
      prioritized.filter (fun l => decide (l.qualification_score < 60)) }

/-- Lines 208–236: `generate_call_objectives`. -/
def generate_call_objectives (lead : DiscoveredLead) : String :=
  let industry := (strLower lead.industry)
  let job_title := (strLower lead.job_title)
  let company_size := (strLower lead.company_size)
  if containsSub "technology" industry || containsSub "software" industry then
    if containsSub "cto" job_title || containsSub "vp" job_title then
      "Discuss technology solutions and digital transformation opportunities"
    else "Introduce our software solutions and schedule product demo"
  else if containsSub "healthcare" industry then
    "Present healthcare solutions and compliance benefits"
  else if containsSub "finance" industry || containsSub "banking" industry then
    "Discuss financial services solutions and security features"
  else if containsSub "retail" industry || containsSub "ecommerce" industry then
    "Present retail solutions and customer engagement tools"
  else if containsSub "manufacturing" industry then
    "Discuss manufacturing solutions and operational efficiency"
  else if containsSub "enterprise" company_size || containsSub "large" company_size then
    "Schedule executive meeting to discuss enterprise solutions"
  else if containsSub "small" company_size || containsSub "startup" company_size then
    "Introduce our solutions and discuss growth opportunities"
  else "Introduce our services and explore partnership opportunities"

/-- Lines 238–263: `estimate_call_duration` — base 15, company-size and
job-title and score adjustments, then `min(60, max(10, d))`. -/
def estimate_call_duration (lead : DiscoveredLead) : ℤ :=
  let base_duration : ℤ := 15
  let company_size := (strLower lead.company_size)
  let base_duration :=
    if containsSub "enterprise" company_size || containsSub "large" company_size then
      base_duration + 10
    else if containsSub "small" company_size || containsSub "startup" company_size then
      base_duration - 5
    else base_duration
  let job_title := (strLower lead.job_title)
  let base_duration :=
    if containsSub "ceo" job_title || containsSub "president" job_title then
      base_duration + 15
    else if containsSub "manager" job_title || containsSub "director" job_title then
      base_duration + 5
    else base_duration
  let base_duration :=
    if (80 : ℚ) ≤ lead.qualification_score then base_duration + 10
    else if (60 : ℚ) ≤ lead.qualification_score then base_duration + 5
    else base_duration
  min 60 (max 10 base_duration)

/-- `lead_contact_info` sub-dict of a schedule item. -/
structure LeadContactInfo where
  company_name : String
  contact_name : String
  email : String
  phone : Option String
  job_title : String
  industry : String
  company_size : String
  location : String
deriving Repr, DecidableEq

/-- `CallScheduleItem` output model.  `scheduled_datetime` (the string
`"YYYY-MM-DD HH:MM"`) is split into the day ordinal and the time string;
the id `call_{n:03d}` is modelled by its numeric part. -/
structure CallScheduleItem where
  schedule_id : ℕ
  lead_id : String
  lead_contact_info : LeadContactInfo
  scheduled_date : ℤ
  scheduled_time : String
  call_objective : String
  expected_duration : ℤ
  priority_level : String
deriving Repr, DecidableEq

/-- Lines 580–618: one schedule item of the fallback builder. -/
def mkCallItem (schedule_id : ℕ) (lead : DiscoveredLead) (date : ℤ)
    (time : String) : CallScheduleItem :=
  { schedule_id := schedule_id
    lead_id := lead.lead_id
    lead_contact_info :=
      { company_name := lead.company_name
        contact_name := lead.contact_name
        email := lead.email
        phone := lead.phone
        job_title := lead.job_title
        industry := lead.industry
        company_size := lead.company_size
        location := lead.location }
    scheduled_date := date
    scheduled_time := time
    call_objective := generate_call_objectives lead
    expected_duration := estimate_call_duration lead
    priority_level :=
      if (80 : ℚ) ≤ lead.qualification_score then "high"
      else if (60 : ℚ) ≤ lead.qualification_score then "medium"
      else "low" }

/-- Lines 581–582: `preferred_hours[call_num % len(preferred_hours)]` with
default `"10:00"` for an empty list. -/
def callTimeFor (preferred_hours : List String) (call_num : ℕ) : String :=
  if preferred_hours.isEmpty then "10:00"
  else preferred_hours.getD (call_num % preferred_hours.length) ""

/-- Line 574: `min(calls_per_day, len(prioritized_leads) - lead_index)` as a
`range` bound (negative values give an empty range). -/
def fallbackDayCount (calls_per_day : ℤ) (remaining : ℕ) : ℕ :=
  (min calls_per_day (remaining : ℤ)).toNat

/-- Lines 566–624: the scheduling `while` loop of
`create_fallback_call_schedule`.  Every iteration advances `current_date`
by one day and the loop exits as soon as `current_date > end_date` or the
leads are exhausted, so `(end_date - start_date).toNat + 1` fuel (supplied
by `fallbackCallLoop`) is exactly the number of iterations the loop can
perform: when the fuel hits `0`, `current_date` already exceeds `end_date`
and the Python loop would exit too.  The redundant in-loop
`if lead_index >= len(...): break` is unreachable because the range bound
already caps `lead_index` below `len(prioritized_leads)`. -/
def fallbackCallGo (req : OutreachCallRequest) (leads : List DiscoveredLead) :
    ℕ → ℤ → ℕ → ℕ → List CallScheduleItem
  | 0, _, _, _ => []
  | fuel + 1, current_date, lead_index, schedule_id =>
    if current_date ≤ req.campaign_duration.end_date ∧ lead_index < leads.length then
      if current_date ∈ req.call_window_preferences.avoid_dates then
        fallbackCallGo req leads fuel (current_date + 1) lead_index schedule_id
      else
        let n := fallbackDayCount req.calls_per_day (leads.length - lead_index)
        let day_items := (List.range n).map (fun k =>
          mkCallItem (schedule_id + k) (leads.getD (lead_index + k) default)
            current_date
            (callTimeFor req.call_window_preferences.preferred_hours k))
        day_items ++
          fallbackCallGo req leads fuel (current_date + 1) (lead_index + n)
            (schedule_id + n)
    else []

/-- The `call_schedule` list produced by the fallback builder from a given
lead list. -/
def fallbackCallLoop (req : OutreachCallRequest) (leads : List DiscoveredLead) :
    List CallScheduleItem :=
  fallbackCallGo req leads
    ((req.campaign_duration.end_date - req.campaign_duration.start_date).toNat + 1)
    req.campaign_duration.start_date 0 1

/-- The `schedule_summary` dict of the fallback builder (its
`daily_distribution` is the literal empty dict and is omitted). -/
structure CallScheduleSummary where
  total_calls_scheduled : ℕ
  coverage_percentage : ℚ
  estimated_completion_date : ℤ
deriving Repr, DecidableEq

/-- Shape of the data consumed by `process_call_schedule_data`: parsed
planner JSON or the fallback builder's dict. -/
structure CallScheduleData where
  call_schedule : List CallScheduleItem
  schedule_summary : CallScheduleSummary
deriving Repr, DecidableEq

/-- Lines 547–634: `create_fallback_call_schedule`.  The
`lead_prioritization` argument models the Python dict:
`none` is the empty dict `{}` passed by the exception handler, for which
`.get("prioritized_leads", request.discovered_leads)` falls back to the raw
leads.  The summary's `coverage_percentage` divides by
`len(request.discovered_leads)` and raises `ZeroDivisionError` when there
are no leads (line 631). -/
def create_fallback_call_schedule (req : OutreachCallRequest)
    (lead_prioritization : Option LeadPrioritization) :
    Except PyErr CallScheduleData := do
  let prioritized_leads :=
    match lead_prioritization with
    | some p => p.prioritized_leads
    | none => req.discovered_leads
  let call_schedule := fallbackCallLoop req prioritized_leads
  let coverage ←
    if req.discovered_leads.length = 0 then Except.error PyErr.zeroDivisionError
    else
      Except.ok ((call_schedule.length : ℚ) / (req.discovered_leads.length : ℚ) * 100)
  Except.ok
    { call_schedule := call_schedule
      schedule_summary :=
        { total_calls_scheduled := call_schedule.length
          coverage_percentage := coverage
          estimated_completion_date := req.campaign_duration.end_date } }

/-- The dict `process_call_schedule_data` would return; its construction is
never reached (see `process_call_schedule_data`). -/
structure CallProcessed where
  call_schedule : List CallScheduleItem
  total_calls_scheduled : ℕ
deriving Repr, DecidableEq

/-- Lines 420–479: `process_call_schedule_data`.  The enhancement loop
(lines 426–441) and the summary metrics only read dict keys with defaults
or divide by `max(1, total_calls)` and cannot raise, except
`total_calls // request.calls_per_day` (line 457), which raises
`ZeroDivisionError` when `calls_per_day == 0` (`//` is floor division,
`Int.fdiv`).  The returned dict (line 476) then evaluates the free name
`timezone_analysis`, which is bound in no enclosing scope of this function
— the name is a local of `schedule_outreach_calls` and of
`analyze_timezone_and_availability` only — so a `NameError` is raised
before any value is returned. -/
def process_call_schedule_data (raw : CallScheduleData)
    (req : OutreachCallRequest) : Except PyErr CallProcessed := do
  let _estimated_days ←
    if req.calls_per_day = 0 then Except.error PyErr.zeroDivisionError
    else Except.ok (Int.fdiv (raw.call_schedule.length : ℤ) req.calls_per_day)
  Except.error PyErr.nameError

/-- `outputs` of an `OutreachCallResponse`: processed data on the success
path, the raw fallback dict from the exception handler. -/
inductive CallOutputs where
  | processed (p : CallProcessed)
  | raw (r : CallScheduleData)
deriving Repr, DecidableEq

/-- `OutreachCallResponse` output model. -/
structure OutreachCallResponse where
  outputs : CallOutputs
  execution_status : String
deriving Repr, DecidableEq

/-- Lines 327–418: `schedule_outreach_calls`.  `planner` abstracts the
agent call plus `json.loads` as in the module conventions;
`analyze_timezone_and_availability` (line 345) is a pure dict builder whose
result only feeds the prompt string and is not modelled.  The outer
`except` rebuilds the fallback schedule with empty dicts for the analysis
arguments and returns `"partial_success"`; an exception inside the handler
propagates to the caller. -/
def schedule_outreach_calls (req : OutreachCallRequest)
    (planner : Except PyErr (Option CallScheduleData)) :
    Except PyErr OutreachCallResponse :=
  let tryBody : Except PyErr OutreachCallResponse := do
    let lead_prioritization := prioritize_leads req.discovered_leads
      req.prioritization_criteria
    let content ← planner
    let schedule_data ←
      match content with
      | some d => Except.ok d
      | none => create_fallback_call_schedule req (some lead_prioritization)
    let processed ← process_call_schedule_data schedule_data req
    Except.ok
      { outputs := CallOutputs.processed processed, execution_status := "success" }
  match tryBody with
  | Except.ok r => Except.ok r
  | Except.error _ =>
    match create_fallback_call_schedule req none with
    | Except.ok fb =>
      Except.ok
        { outputs := CallOutputs.raw fb, execution_status := "partial_success" }
    | Except.error e => Except.error e

/-- Observable outcome of a call to the scheduler. -/
def statusOfCall : Except PyErr OutreachCallResponse → String
  | Except.ok r => r.execution_status
  | Except.error _ => "uncaught exception"

end OCS

namespace CTO

/-- Modelled from the claim wording for the slot-count target: posts per
week `((min+max)/2)*7` capped at 5 when `min_per_day ≥ 1` and at 3
otherwise, `total_slots = round(total_days / 7 * posts_per_week)`, clamped
to `[max(len(priority_dates)+2, 1), min(20, total_days)]`.  This is the
claim's formula verbatim, for comparison against `fallbackTotalSlots`. -/
def claimTotalSlotsRound (total_days min_posts_per_day max_posts_per_day : ℤ)
    (num_key_dates : ℕ) : ℤ :=
  let avg_posts_per_day : ℚ := ((min_posts_per_day : ℚ) + (max_posts_per_day : ℚ)) / 2
  let posts_per_week : ℚ :=
    if 1 ≤ min_posts_per_day then min (avg_posts_per_day * 7) 5
    else min (avg_posts_per_day * 7) 3
  let total : ℤ := round ((total_days : ℚ) / 7 * posts_per_week)
  max (max ((num_key_dates : ℤ) + 2) 1) (min total (min 20 total_days))

/-- The claim's formula amended in the single place the code forces:
`int(...)` truncation toward zero in place of `round(...)`. -/
def specTotalSlotsTrunc (total_days min_posts_per_day max_posts_per_day : ℤ)
    (num_key_dates : ℕ) : ℤ :=
  let avg_posts_per_day : ℚ := ((min_posts_per_day : ℚ) + (max_posts_per_day : ℚ)) / 2
  let posts_per_week : ℚ :=
    if 1 ≤ min_posts_per_day then min (avg_posts_per_day * 7) 5
    else min (avg_posts_per_day * 7) 3
  let total : ℤ := ratTrunc ((total_days : ℚ) / 7 * posts_per_week)
  max (max ((num_key_dates : ℤ) + 2) 1) (min total (min 20 total_days))

end CTO

namespace OCS

/-- Modelled from the claim wording of C8: the company-size adjustment
(+10 enterprise/large, −5 small/startup). -/
def claimSizeAdjustment (company_size : String) : ℤ :=
  if containsSub "enterprise" (strLower company_size)
      || containsSub "large" (strLower company_size) then 10
  else if containsSub "small" (strLower company_size)
      || containsSub "startup" (strLower company_size) then -5
  else 0

/-- Modelled from the claim wording of C8: the job-title adjustment
(+15 CEO/president, +5 manager/director). -/
def claimTitleAdjustment (job_title : String) : ℤ :=
  if containsSub "ceo" (strLower job_title)
      || containsSub "president" (strLower job_title) then 15
  else if containsSub "manager" (strLower job_title)
      || containsSub "director" (strLower job_title) then 5
  else 0

/-- Modelled from the claim wording of C8: the qualification-score
adjustment (+10 if ≥ 80, +5 if ≥ 60). -/
def claimScoreAdjustment (score : ℚ) : ℤ :=
  if (80 : ℚ) ≤ score then 10
  else if (60 : ℚ) ≤ score then 5
  else 0

end OCS

/-! Concrete inputs used by counterexamples and witnesses. -/

/-- A one-day campaign window with no key dates. -/
def reqSingleDay : CTO.CampaignTimelineRequest :=
  { campaign_duration := { start_date := 0, end_date := 0 }
    content_inventory :=
      [{ content_id := "content_001", content_type := "social_caption"
         platform := "Instagram" }]
    audience_segments := ["millennials"]
    optimal_posting_times := { platform := "Instagram", time_slots := ["09:00"] }
    posting_frequency := { min_posts_per_day := 1, max_posts_per_day := 1 }
    key_dates := [] }

/-- An 11-day window with `min_posts_per_day = 0`, `max_posts_per_day = 1`,
no key dates: the rational slot target is `33/7 ≈ 4.71`. -/
def reqElevenDay : CTO.CampaignTimelineRequest :=
  { campaign_duration := { start_date := 0, end_date := 10 }
    content_inventory :=
      [{ content_id := "content_001", content_type := "social_caption"
         platform := "Instagram" }]
    audience_segments := ["millennials"]
    optimal_posting_times := { platform := "Instagram", time_slots := ["09:00"] }
    posting_frequency := { min_posts_per_day := 0, max_posts_per_day := 1 }
    key_dates := [] }

/-- A 31-day window with `min_posts_per_day = 0`, `max_posts_per_day = 1`
(the spec's example scenario 1). -/
def reqThirtyOneDay : CTO.CampaignTimelineRequest :=
  { campaign_duration := { start_date := 0, end_date := 30 }
    content_inventory :=
      [{ content_id := "content_001", content_type := "social_caption"
         platform := "Instagram" },
       { content_id := "content_002", content_type := "ad_copy"
         platform := "Facebook" }]
    audience_segments := ["millennials", "professionals"]
    optimal_posting_times := { platform := "Instagram", time_slots := ["09:00"] }
    posting_frequency := { min_posts_per_day := 0, max_posts_per_day := 1 }
    key_dates := [] }

/-- An inverted date range (start after end); all lists nonempty. -/
def reqInverted : CTO.CampaignTimelineRequest :=
  { campaign_duration := { start_date := 10, end_date := 5 }
    content_inventory :=
      [{ content_id := "content_001", content_type := "social_caption"
         platform := "Instagram" }]
    audience_segments := ["millennials"]
    optimal_posting_times := { platform := "Instagram", time_slots := ["09:00"] }
    posting_frequency := { min_posts_per_day := 0, max_posts_per_day := 0 }
    key_dates := [] }

/-- A valid window with an empty content inventory. -/
def reqEmptyInventory : CTO.CampaignTimelineRequest :=
  { campaign_duration := { start_date := 0, end_date := 6 }
    content_inventory := []
    audience_segments := ["millennials"]
    optimal_posting_times := { platform := "Instagram", time_slots := ["09:00"] }
    posting_frequency := { min_posts_per_day := 1, max_posts_per_day := 1 }
    key_dates := [] }

/-- A well-formed 7-day request on which the fallback builder and the
processing step both succeed. -/
def reqSevenDay : CTO.CampaignTimelineRequest :=
  { campaign_duration := { start_date := 0, end_date := 6 }
    content_inventory :=
      [{ content_id := "content_001", content_type := "social_caption"
         platform := "Instagram" }]
    audience_segments := ["millennials"]
    optimal_posting_times := { platform := "Instagram", time_slots := ["09:00"] }
    posting_frequency := { min_posts_per_day := 1, max_posts_per_day := 1 }
    key_dates := [] }

/-- Five distinct pool images. -/
def fiveImages : List CDS.GeneratedImage :=
  [{ image_id := "img_001", image_url := "u1" },
   { image_id := "img_002", image_url := "u2" },
   { image_id := "img_003", image_url := "u3" },
   { image_id := "img_004", image_url := "u4" },
   { image_id := "img_005", image_url := "u5" }]

/-- One slot on a platform that takes a single image per post. -/
def linkedinSlot (n : ℕ) : CDS.OptimizedTimeline :=
  { timeline_slot_id := "slot_" ++ toString n
    scheduled_date := (n : ℤ)
    content_type := "social_caption"
    platform := "LinkedIn"
    target_segment := "professionals"
    priority := ["medium"]
    optimal_time := "09:00"
    reasoning := "r" }

/-- Eight single-image slots. -/
def eightSlots : List CDS.OptimizedTimeline :=
  (List.range 8).map linkedinSlot

/-- A single available copy. -/
def oneCopy : List CDS.GeneratedCopy :=
  [{ copy_id := "social_copy_001", copy_text := "hello", word_count := 1
     hashtags := ["h"], emojis := [] }]

/-- A deterministic stand-in for `random.choice`. -/
def headChoice (l : List CDS.GeneratedCopy) : CDS.GeneratedCopy :=
  l.headD default

/-- A Technology lead with qualification score 90. -/
def leadTech : OCS.DiscoveredLead :=
  { lead_id := "lead_tech", company_name := "TechCorp", contact_name := "A"
    email := "a@t.com", phone := none, job_title := "VP of Technology"
    industry := "Technology", company_size := "Enterprise", location := "SF"
    qualification_score := 90, lead_source := "web" }

/-- A Healthcare lead with qualification score 95. -/
def leadHealth : OCS.DiscoveredLead :=
  { lead_id := "lead_health", company_name := "MediCo", contact_name := "B"
    email := "b@m.com", phone := none, job_title := "Director"
    industry := "Healthcare", company_size := "Large", location := "NY"
    qualification_score := 95, lead_source := "web" }

/-- A request whose leads are the Healthcare lead (score 95) followed by
the Technology lead (score 90), with
`priority_segments = ["Technology", "Finance"]`. -/
def reqTwoLeads : OCS.OutreachCallRequest :=
  { discovered_leads := [leadHealth, leadTech]
    call_window_preferences :=
      { timezone := "EST", preferred_hours := ["10:00", "14:00"], avoid_dates := [] }
    campaign_duration := { start_date := 0, end_date := 9 }
    calls_per_day := 1
    prioritization_criteria :=
      { qualification_score_threshold := 60
        priority_segments := ["Technology", "Finance"] }}

/-- A request with no discovered leads at all. -/
def reqNoLeads : OCS.OutreachCallRequest :=
  { discovered_leads := []
    call_window_preferences :=
      { timezone := "EST", preferred_hours := ["10:00"], avoid_dates := [] }
    campaign_duration := { start_date := 0, end_date := 9 }
    calls_per_day := 1
    prioritization_criteria :=
      { qualification_score_threshold := 60, priority_segments := [] }}

/-- A syntactically well-formed planner payload for the call scheduler. -/
def someCallData : OCS.CallScheduleData :=
  { call_schedule := []
    schedule_summary :=
      { total_calls_scheduled := 0, coverage_percentage := 0
        estimated_completion_date := 0 }}

/-- The exception carried by a raising call, if any. -/
def exceptErr {α : Type} : Except PyErr α → Option PyErr
  | Except.error e => some e
  | Except.ok _ => none

/-! Helper lemmas shared between several claims. -/

/-- The fallback slot count is at least 2 (there are always at least
`len(key_dates) + 2` slots). -/
theorem fallbackTotalSlots_ge_two (total_days minP maxP : ℤ) (k : ℕ) :
    2 ≤ CTO.fallbackTotalSlots total_days minP maxP k := by
  simp only [CTO.fallbackTotalSlots]
  exact le_trans (by omega : (2 : ℤ) ≤ (k : ℤ) + 2) (le_max_left _ _)

/-! ### C8 -/

/-- C8: for every lead, `estimate_call_duration` returns the base 15
minutes adjusted by +10 for enterprise/large company size, −5 for
small/startup, +15 for a CEO/president job title, +5 for manager/director,
+10 for `qualification_score ≥ 80`, +5 for `≥ 60`, clamped to `[10, 60]`;
in particular the result always lies in `[10, 60]`. -/
theorem c8_estimate_call_duration (lead : OCS.DiscoveredLead) :
    10 ≤ OCS.estimate_call_duration lead ∧
    OCS.estimate_call_duration lead ≤ 60 ∧
    OCS.estimate_call_duration lead =
      min 60 (max 10 (15 + OCS.claimSizeAdjustment lead.company_size
        + OCS.claimTitleAdjustment lead.job_title
        + OCS.claimScoreAdjustment lead.qualification_score)) := by
  simp only [OCS.estimate_call_duration, OCS.claimSizeAdjustment,
    OCS.claimTitleAdjustment, OCS.claimScoreAdjustment]
  split_ifs <;> exact ⟨by decide, by decide, by decide⟩

/-! ### C9 -/

/-- C9: timeline enrichment is idempotent — applying the slot-enhancement
step of `process_timeline_data` a second time to an already-enriched slot
list gives exactly the same slots, because `campaign_phase`,
`engagement_score` and `content_priority` are recomputed from the slot's
base fields (which enhancement preserves) and overwrite the previous
values. -/
theorem c9_enrichment_idempotent (req : CTO.CampaignTimelineRequest)
    (slots : List CTO.TimelineSlot) :
    (slots.map (CTO.enhanceSlot req)).map (CTO.enhanceSlot req)
      = slots.map (CTO.enhanceSlot req) := by
  rw [List.map_map]
  exact List.map_congr_left (fun s _ => rfl)

/-! ### C3 -/

unseal Nat.gcd Rat.add Rat.mul Rat.inv Rat.sub List.merge List.mergeSort in
/-- C3 counterexample: on a single-day window with no key dates the
fallback builder produces 2 slots, although `min(20, total_days) = 1`, so
the claim's upper bound `total_slots ≤ min(20, total_days)` is false. -/
theorem c3_counterexample :
    CTO.timelineSlotCount (CTO.create_fallback_timeline reqSingleDay) = 2 ∧
    min 20 (reqSingleDay.campaign_duration.end_date
      - reqSingleDay.campaign_duration.start_date + 1) = 1 := by
  constructor
  · decide
  · decide

/-- C3 amended: the slot count computed by the fallback builder satisfies
`min(len(key_dates)+2, total_days) ≤ total_slots` (as claimed) but only
`total_slots ≤ max(len(key_dates)+2, min(20, total_days))` — the
`len(key_dates)+2` floor can exceed `min(20, total_days)`, as on a
single-day window. -/
theorem c3_amended (total_days minP maxP : ℤ) (k : ℕ) :
    min ((k : ℤ) + 2) total_days ≤ CTO.fallbackTotalSlots total_days minP maxP k ∧
    CTO.fallbackTotalSlots total_days minP maxP k
      ≤ max ((k : ℤ) + 2) (min 20 total_days) := by
  simp only [CTO.fallbackTotalSlots]
  constructor
  · exact le_trans (min_le_left _ _) (le_max_left _ _)
  · exact max_le (le_max_left _ _)
      (le_trans (min_le_right _ _) (le_max_right _ _))

/-! ### C4 -/

unseal Nat.gcd Rat.add Rat.mul Rat.inv Rat.sub List.merge List.mergeSort in
/-- C4 counterexample: on an 11-day window with `min=0`, `max=1`, no key
dates, the code computes `int(33/7) = 4` slots (and the builder really
produces 4), while the claim's `round(33/7) = 5` formula demands 5. -/
theorem c4_counterexample :
    CTO.fallbackTotalSlots 11 0 1 0 = 4 ∧
    CTO.claimTotalSlotsRound 11 0 1 0 = 5 ∧
    CTO.timelineSlotCount (CTO.create_fallback_timeline reqElevenDay) = 4 := by
  refine ⟨by decide, by decide, by decide⟩

unseal Nat.gcd Rat.add Rat.mul Rat.inv Rat.sub in
/-- Numeric check used by the C4 amendment: the spec's 31-day example. -/
theorem c4_slots_thirtyone : CTO.fallbackTotalSlots 31 0 1 0 = 13 := by decide

/-- C4 amended: the fallback slot count equals the claim's formula with
`round` replaced by `int` truncation toward zero (the only change the code
forces); the spec's 31-day example is unaffected and still yields 13. -/
theorem c4_amended :
    (∀ (total_days minP maxP : ℤ) (k : ℕ),
      CTO.fallbackTotalSlots total_days minP maxP k
        = CTO.specTotalSlotsTrunc total_days minP maxP k) ∧
    CTO.fallbackTotalSlots 31 0 1 0 = 13 := by
  constructor
  · intro total_days minP maxP k
    simp only [CTO.fallbackTotalSlots, CTO.specTotalSlotsTrunc]
    rw [max_eq_left (by omega : (1 : ℤ) ≤ (k : ℤ) + 2)]
  · have h := c4_slots_thirtyone
    exact h

/-! ### C2 -/

/-- With an empty content inventory or empty audience segments, every slot
construction raises `ZeroDivisionError` at the `% len(...)` indexing. -/
theorem mkFallbackSlot_error_of_empty (req : CTO.CampaignTimelineRequest)
    (h : req.content_inventory = [] ∨ req.audience_segments = [])
    (total_days total_slots : ℤ) (slot_id : ℕ) :
    CTO.mkFallbackSlot req total_days total_slots slot_id
      = Except.error PyErr.zeroDivisionError := by
  rcases h with h | h
  · simp [CTO.mkFallbackSlot, pyIndexMod, h, Bind.bind, Except.bind]
  · by_cases hinv : req.content_inventory.length = 0
    · simp [CTO.mkFallbackSlot, pyIndexMod, hinv, Bind.bind, Except.bind]
    · simp [CTO.mkFallbackSlot, pyIndexMod, hinv, h, Bind.bind, Except.bind]

/-- `mapM` over `Except` short-circuits on an erroring head element. -/
theorem mapM_error_of_head {α β : Type} (f : α → Except PyErr β) (x : α)
    (l : List α) (e : PyErr) (hx : f x = Except.error e) :
    (x :: l).mapM f = Except.error e := by
  simp [List.mapM, List.mapM.loop, hx, Bind.bind, Except.bind]

/-- C2 amended: the fallback builder does raise on an empty
`content_inventory` or empty `audience_segments` — a `ZeroDivisionError`
from the `% len(...)` cycling, not a validation error — but it does NOT
raise on an inverted date range (`total_days < 1`): there is no date
validation and a timeline is produced silently (see the counterexample). -/
theorem c2_amended (req : CTO.CampaignTimelineRequest)
    (h : req.content_inventory = [] ∨ req.audience_segments = []) :
    CTO.create_fallback_timeline req = Except.error PyErr.zeroDivisionError := by
  have h2 : 2 ≤ CTO.fallbackTotalSlots
      (req.campaign_duration.end_date - req.campaign_duration.start_date + 1)
      req.posting_frequency.min_posts_per_day
      req.posting_frequency.max_posts_per_day req.key_dates.length :=
    fallbackTotalSlots_ge_two _ _ _ _
  obtain ⟨n, hn⟩ : ∃ n, (CTO.fallbackTotalSlots
      (req.campaign_duration.end_date - req.campaign_duration.start_date + 1)
      req.posting_frequency.min_posts_per_day
      req.posting_frequency.max_posts_per_day req.key_dates.length).toNat
        = n + 1 :=
    ⟨(CTO.fallbackTotalSlots
      (req.campaign_duration.end_date - req.campaign_duration.start_date + 1)
      req.posting_frequency.min_posts_per_day
      req.posting_frequency.max_posts_per_day req.key_dates.length).toNat - 1,
      by omega⟩
  have hm : List.mapM (fun k => CTO.mkFallbackSlot req
      (req.campaign_duration.end_date - req.campaign_duration.start_date + 1)
      (CTO.fallbackTotalSlots
        (req.campaign_duration.end_date - req.campaign_duration.start_date + 1)
        req.posting_frequency.min_posts_per_day
        req.posting_frequency.max_posts_per_day req.key_dates.length) (k + 1))
      (0 :: (List.range n).map Nat.succ) = Except.error PyErr.zeroDivisionError :=
    mapM_error_of_head _ _ _ _ (mkFallbackSlot_error_of_empty req h _ _ _)
  simp only [CTO.create_fallback_timeline, hn, List.range_succ_eq_map, hm,
    Bind.bind, Except.bind]

/-- C2 witness: the concrete empty-inventory request raises. -/
theorem c2_witness :
    CTO.create_fallback_timeline reqEmptyInventory
      = Except.error PyErr.zeroDivisionError :=
  c2_amended reqEmptyInventory (Or.inl rfl)

unseal Nat.gcd Rat.add Rat.mul Rat.inv Rat.sub List.merge List.mergeSort in
/-- C2 counterexample: on an inverted date range (`total_days = -4 < 1`)
the fallback builder does not raise any error — it silently returns a
2-slot timeline (both slots clamped to the end date) — contradicting the
claim that `total_days < 1` is rejected with a validation error. -/
theorem c2_counterexample :
    (CTO.create_fallback_timeline reqInverted).isOk = true ∧
    reqInverted.campaign_duration.end_date
      - reqInverted.campaign_duration.start_date + 1 < 1 ∧
    CTO.timelineSlotCount (CTO.create_fallback_timeline reqInverted) = 2 := by
  refine ⟨by decide, by decide, by decide⟩

/-! ### C6 -/

/-- `ratTrunc` agrees with the floor on nonnegative rationals. -/
theorem ratTrunc_eq_floor {q : ℚ} (h : 0 ≤ q) : ratTrunc q = ⌊q⌋ := by
  rw [ratTrunc, Rat.floor_def]
  exact Int.tdiv_eq_ediv (Rat.num_nonneg.mpr h) (by positivity)

/-- `int(a / b)` on naturals is natural division. -/
theorem ratTrunc_natCast_div (a b : ℕ) :
    ratTrunc ((a : ℚ) / (b : ℚ)) = ((a / b : ℕ) : ℤ) := by
  rw [ratTrunc_eq_floor (by positivity), Rat.floor_natCast_div_natCast]
  rw [Int.ofNat_tdiv]
  exact (Int.tdiv_eq_ediv (by positivity) (by positivity)).symm

/-- The day offset of the fallback builder, in natural-number form:
for `slot_id ≥ 1` it is `(slot_id - 1) * total_days / total_slots`
(floor division). -/
theorem fallbackDayOffset_natCast (total_days total_slots : ℕ) (i : ℕ)
    (h1 : 1 ≤ i) :
    CTO.fallbackDayOffset (total_days : ℤ) (total_slots : ℤ) i
      = (((i - 1) * total_days / total_slots : ℕ) : ℤ) := by
  rw [CTO.fallbackDayOffset]
  have hcast : ((i : ℚ) - 1) * ((total_days : ℤ) : ℚ)
      = (((i - 1) * total_days : ℕ) : ℚ) := by
    push_cast [Nat.cast_sub h1]
    ring
  rw [hcast]
  have : (((total_slots : ℤ) : ℚ)) = ((total_slots : ℕ) : ℚ) := by push_cast; ring
  rw [this, ratTrunc_natCast_div]

/-- Gap between consecutive floor-divided multiples: for any `a`,
`(a + D)/S - a/S` lies between `⌊D/S⌋` and `⌈D/S⌉ = (D + S - 1)/S`. -/
theorem div_gap_bounds (D S a : ℕ) (hS : 0 < S) :
    D / S ≤ (a + D) / S - a / S ∧ (a + D) / S - a / S ≤ (D + S - 1) / S := by
  rw [Nat.add_div hS]
  have hd := Nat.div_add_mod D S
  have ha := Nat.mod_lt a hS
  have hDm := Nat.mod_lt D hS
  constructor
  · split_ifs
    · rw [Nat.add_assoc, Nat.add_sub_cancel_left]
      exact Nat.le_succ _
    · rw [Nat.add_zero, Nat.add_sub_cancel_left]
  · split_ifs with hc
    · have hr : 1 ≤ D % S := by omega
      have hrw : D + S - 1 = S * (D / S + 1) + (D % S - 1) := by
        have hdist : S * (D / S + 1) = S * (D / S) + S := by ring
        omega
      have hsmall : (D % S - 1) / S = 0 := Nat.div_eq_of_lt (by omega)
      have hceil : (D + S - 1) / S = D / S + 1 := by
        rw [hrw, Nat.mul_add_div hS, hsmall]
      rw [Nat.add_assoc, Nat.add_sub_cancel_left, hceil]
    · rw [Nat.add_zero, Nat.add_sub_cancel_left]
      exact Nat.div_le_div_right (by omega)

unseal Nat.gcd Rat.add Rat.mul Rat.inv Rat.sub in
/-- C6: with slot `i` (1-based) placed at
`day_offset = int((i-1) * total_days / total_slots)`, the offsets are
nondecreasing and every adjacent gap is at least `⌊total_days/total_slots⌋`
and at most `⌈total_days/total_slots⌉ = (total_days+total_slots-1)/total_slots`;
moreover every offset stays at most `total_days - 1`, so the
`scheduled_date` clamp to `end_date` never fires and adjacent slots of the
date-sorted output are exactly consecutive slot ids. -/
theorem c6_even_spacing (total_days total_slots : ℕ)
    (hD : 1 ≤ total_days) (hS : 1 ≤ total_slots) (i : ℕ)
    (h1 : 1 ≤ i) (hi : i < total_slots) :
    ((total_days / total_slots : ℕ) : ℤ)
        ≤ CTO.fallbackDayOffset total_days total_slots (i + 1)
          - CTO.fallbackDayOffset total_days total_slots i ∧
    CTO.fallbackDayOffset total_days total_slots (i + 1)
        - CTO.fallbackDayOffset total_days total_slots i
      ≤ (((total_days + total_slots - 1) / total_slots : ℕ) : ℤ) ∧
    CTO.fallbackDayOffset total_days total_slots (i + 1)
      ≤ (total_days : ℤ) - 1 := by
  have hS0 : 0 < total_slots := hS
  rw [fallbackDayOffset_natCast total_days total_slots i h1,
    fallbackDayOffset_natCast total_days total_slots (i + 1) (by omega)]
  have h11 : i + 1 - 1 = i := by omega
  rw [h11]
  have hle : total_days ≤ i * total_days :=
    Nat.le_mul_of_pos_left total_days (by omega)
  have hiD : i * total_days = (i - 1) * total_days + total_days := by
    rw [Nat.sub_one_mul]
    omega
  obtain ⟨hga, hgb⟩ :=
    div_gap_bounds total_days total_slots ((i - 1) * total_days) hS0
  have hmono : (i - 1) * total_days / total_slots
      ≤ ((i - 1) * total_days + total_days) / total_slots :=
    Nat.div_le_div_right (by omega)
  have hlast : ((i - 1) * total_days + total_days) / total_slots
      ≤ total_days - 1 := by
    have hlt : i * total_days < total_days * total_slots := by
      calc i * total_days ≤ (total_slots - 1) * total_days :=
            Nat.mul_le_mul_right total_days (by omega)
        _ < total_days * total_slots := by
            rw [Nat.sub_one_mul]
            have hts : total_days ≤ total_slots * total_days :=
              Nat.le_mul_of_pos_left total_days (by omega)
            calc total_slots * total_days - total_days
                < total_slots * total_days := by omega
              _ = total_days * total_slots := Nat.mul_comm _ _
    have hlt2 : ((i - 1) * total_days + total_days) / total_slots < total_days :=
      (Nat.div_lt_iff_lt_mul hS0).mpr (by omega)
    omega
  rw [hiD]
  generalize hx1 : ((i - 1) * total_days + total_days) / total_slots = x1
    at hga hgb hmono hlast ⊢
  generalize hx2 : (i - 1) * total_days / total_slots = x2 at hga hgb hmono ⊢
  generalize hx3 : (total_days + total_slots - 1) / total_slots = x3 at hgb ⊢
  generalize hx4 : total_days / total_slots = x4 at hga ⊢
  omega

unseal Nat.gcd Rat.add Rat.mul Rat.inv Rat.sub in
/-- C6 witness: a 31-day window with 13 slots, adjacent pair (5, 6). -/
theorem c6_witness :
    ((31 / 13 : ℕ) : ℤ)
        ≤ CTO.fallbackDayOffset ((31 : ℕ) : ℤ) ((13 : ℕ) : ℤ) (5 + 1)
          - CTO.fallbackDayOffset ((31 : ℕ) : ℤ) ((13 : ℕ) : ℤ) 5 ∧
    CTO.fallbackDayOffset ((31 : ℕ) : ℤ) ((13 : ℕ) : ℤ) (5 + 1)
        - CTO.fallbackDayOffset ((31 : ℕ) : ℤ) ((13 : ℕ) : ℤ) 5
      ≤ (((31 + 13 - 1) / 13 : ℕ) : ℤ) ∧
    CTO.fallbackDayOffset ((31 : ℕ) : ℤ) ((13 : ℕ) : ℤ) (5 + 1)
      ≤ ((31 : ℕ) : ℤ) - 1 :=
  c6_even_spacing 31 13 (by decide) (by decide) 5 (by decide) (by decide)

/-! ### C1 -/

/-- Inversion for a successful `Except` bind. -/
theorem bind_ok_inv {α β : Type} {m : Except PyErr α} {f : α → Except PyErr β}
    {y : β} (h : (m >>= f) = Except.ok y) : ∃ x, m = Except.ok x ∧ f x = Except.ok y := by
  cases m with
  | error e => simp [Bind.bind, Except.bind] at h
  | ok x => exact ⟨x, rfl, by simpa [Bind.bind, Except.bind] using h⟩

/-- `mapM.loop` over `Except` preserves lengths on success. -/
theorem mapM_loop_ok_length {α β : Type} (f : α → Except PyErr β) :
    ∀ (l : List α) (acc ys : List β),
      List.mapM.loop f l acc = Except.ok ys → ys.length = l.length + acc.length := by
  intro l
  induction l with
  | nil =>
    intro acc ys h
    simp only [List.mapM.loop, pure, Except.pure, Except.ok.injEq] at h
    subst h
    simp
  | cons x xs ih =>
    intro acc ys h
    simp only [List.mapM.loop] at h
    cases hfx : f x with
    | error e => rw [hfx] at h; simp [Bind.bind, Except.bind] at h
    | ok b =>
      rw [hfx] at h
      simp only [Bind.bind, Except.bind] at h
      have := ih (b :: acc) ys h
      simp at this
      simp [this]
      omega

/-- `mapM` over `Except` preserves lengths on success. -/
theorem mapM_ok_length {α β : Type} (f : α → Except PyErr β) (l : List α)
    (ys : List β) (h : l.mapM f = Except.ok ys) : ys.length = l.length := by
  have := mapM_loop_ok_length f l [] ys (by simpa [List.mapM] using h)
  simpa using this

/-- A successfully built fallback timeline has exactly
`fallbackTotalSlots` slots. -/
theorem create_fallback_timeline_length (req : CTO.CampaignTimelineRequest)
    (t : CTO.RawTimeline) (h : CTO.create_fallback_timeline req = Except.ok t) :
    t.optimized_timeline.length = (CTO.fallbackTotalSlots
      (req.campaign_duration.end_date - req.campaign_duration.start_date + 1)
      req.posting_frequency.min_posts_per_day
      req.posting_frequency.max_posts_per_day req.key_dates.length).toNat := by
  simp only [CTO.create_fallback_timeline] at h
  obtain ⟨slots, hm, hrest⟩ := bind_ok_inv h
  have hslots : slots.length = (CTO.fallbackTotalSlots
      (req.campaign_duration.end_date - req.campaign_duration.start_date + 1)
      req.posting_frequency.min_posts_per_day
      req.posting_frequency.max_posts_per_day req.key_dates.length).toNat := by
    have := mapM_ok_length _ _ _ hm
    simpa using this
  have ht : t.optimized_timeline =
      slots.mergeSort (fun a b => decide (a.scheduled_date ≤ b.scheduled_date)) := by
    injection hrest with h2
    rw [← h2]
  rw [ht, List.length_mergeSort, hslots]

/-- Processing a successfully built fallback timeline cannot raise: the
timeline always has at least 2 slots, so the `high/total` division is
defined. -/
theorem process_timeline_data_fallback_ok (req : CTO.CampaignTimelineRequest)
    (fb : CTO.RawTimeline) (h : CTO.create_fallback_timeline req = Except.ok fb) :
    ∃ pt, CTO.process_timeline_data fb req = Except.ok pt := by
  have hlen := create_fallback_timeline_length req fb h
  have h2 := fallbackTotalSlots_ge_two
    (req.campaign_duration.end_date - req.campaign_duration.start_date + 1)
    req.posting_frequency.min_posts_per_day
    req.posting_frequency.max_posts_per_day req.key_dates.length
  have hne : ¬ (fb.optimized_timeline.map (CTO.enhanceSlot req)).length = 0 := by
    rw [List.length_map]
    omega
  simp only [CTO.process_timeline_data]
  rw [if_neg hne]
  exact ⟨_, rfl⟩

/-- C1 amended: when the planner's text fails strict JSON parsing
(`JSONDecodeError`), `optimize_campaign_timeline` substitutes the
deterministic fallback timeline inside the outer `try` and — contrary to
the claim — still returns `execution_status = "success"` whenever nothing
else raises (otherwise the exception escapes the handler and no response is
returned at all); `"partial_success"` is produced only by the outer
exception handler, e.g. when the planner call itself raises. -/
theorem c1_amended :
    (∀ req, CTO.statusOf (CTO.optimize_campaign_timeline req (Except.ok none))
        = "success" ∨
      CTO.statusOf (CTO.optimize_campaign_timeline req (Except.ok none))
        = "uncaught exception") ∧
    (∀ req e, CTO.statusOf (CTO.optimize_campaign_timeline req (Except.error e))
        = "partial_success" ∨
      CTO.statusOf (CTO.optimize_campaign_timeline req (Except.error e))
        = "uncaught exception") := by
  constructor
  · intro req
    cases hfb : CTO.create_fallback_timeline req with
    | error e =>
      right
      simp [CTO.optimize_campaign_timeline, CTO.statusOf, hfb, Bind.bind,
        Except.bind]
    | ok fb =>
      left
      obtain ⟨pt, hpt⟩ := process_timeline_data_fallback_ok req fb hfb
      simp [CTO.optimize_campaign_timeline, CTO.statusOf, hfb, hpt, Bind.bind,
        Except.bind]
  · intro req e
    cases hfb : CTO.create_fallback_timeline req with
    | error e2 =>
      right
      simp [CTO.optimize_campaign_timeline, CTO.statusOf, hfb, Bind.bind,
        Except.bind]
    | ok fb =>
      left
      simp [CTO.optimize_campaign_timeline, CTO.statusOf, hfb, Bind.bind,
        Except.bind]

unseal Nat.gcd Rat.add Rat.mul Rat.inv Rat.sub List.merge List.mergeSort in
/-- C1 counterexample: on a concrete well-formed request whose planner
output fails JSON parsing, the returned `execution_status` is `"success"`,
not the claimed `"partial_success"`. -/
theorem c1_counterexample :
    CTO.statusOf (CTO.optimize_campaign_timeline reqSevenDay (Except.ok none))
      = "success" := by
  decide

/-! ### C10 -/

/-- `process_call_schedule_data` never returns: either the
`ZeroDivisionError` from `total_calls // calls_per_day`, or the
`NameError` from the unbound `timezone_analysis` in the returned dict. -/
theorem process_call_schedule_data_error (raw : OCS.CallScheduleData)
    (req : OCS.OutreachCallRequest) :
    ∃ e, OCS.process_call_schedule_data raw req = Except.error e := by
  simp only [OCS.process_call_schedule_data]
  by_cases h : req.calls_per_day = 0
  · rw [if_pos h]
    exact ⟨_, rfl⟩
  · rw [if_neg h]
    exact ⟨_, rfl⟩

/-- C10 amended: `schedule_outreach_calls` can never return
`execution_status = "success"` — `process_call_schedule_data` always raises
(NameError on the unbound `timezone_analysis`, or ZeroDivisionError when
`calls_per_day = 0`), so every invocation is exactly the exception
handler's rebuild of the fallback schedule with `"partial_success"`.  The
original claim's "every invocation returns" is too strong: with an empty
`discovered_leads` list the handler's own fallback rebuild raises
`ZeroDivisionError` (see the counterexample); whenever there is at least
one lead, the response is the fallback schedule with `"partial_success"`. -/
theorem c10_amended :
    (∀ (req : OCS.OutreachCallRequest)
        (planner : Except PyErr (Option OCS.CallScheduleData)),
      OCS.schedule_outreach_calls req planner
        = (OCS.create_fallback_call_schedule req none).map
            (fun fb =>
              { outputs := OCS.CallOutputs.raw fb
                execution_status := "partial_success" })) ∧
    (∀ (req : OCS.OutreachCallRequest)
        (planner : Except PyErr (Option OCS.CallScheduleData)),
      req.discovered_leads ≠ [] →
      OCS.statusOfCall (OCS.schedule_outreach_calls req planner)
        = "partial_success") := by
  have h1 : ∀ (req : OCS.OutreachCallRequest)
      (planner : Except PyErr (Option OCS.CallScheduleData)),
      OCS.schedule_outreach_calls req planner
        = (OCS.create_fallback_call_schedule req none).map
            (fun fb =>
              { outputs := OCS.CallOutputs.raw fb
                execution_status := "partial_success" }) := by
    intro req planner
    cases planner with
    | error e =>
      cases hfb : OCS.create_fallback_call_schedule req none with
      | error e2 =>
        simp [OCS.schedule_outreach_calls, hfb, Bind.bind, Except.bind, Except.map]
      | ok fb =>
        simp [OCS.schedule_outreach_calls, hfb, Bind.bind, Except.bind, Except.map]
    | ok content =>
      cases content with
      | none =>
        cases hfb2 : OCS.create_fallback_call_schedule req
            (some (OCS.prioritize_leads req.discovered_leads
              req.prioritization_criteria)) with
        | error e2 =>
          cases hfb : OCS.create_fallback_call_schedule req none with
          | error e3 =>
            simp [OCS.schedule_outreach_calls, hfb, hfb2, Bind.bind, Except.bind,
              Except.map]
          | ok fb =>
            simp [OCS.schedule_outreach_calls, hfb, hfb2, Bind.bind, Except.bind,
              Except.map]
        | ok d =>
          obtain ⟨e2, he⟩ := process_call_schedule_data_error d req
          cases hfb : OCS.create_fallback_call_schedule req none with
          | error e3 =>
            simp [OCS.schedule_outreach_calls, hfb, hfb2, he, Bind.bind,
              Except.bind, Except.map]
          | ok fb =>
            simp [OCS.schedule_outreach_calls, hfb, hfb2, he, Bind.bind,
              Except.bind, Except.map]
      | some d =>
        obtain ⟨e2, he⟩ := process_call_schedule_data_error d req
        cases hfb : OCS.create_fallback_call_schedule req none with
        | error e3 =>
          simp [OCS.schedule_outreach_calls, hfb, he, Bind.bind, Except.bind,
            Except.map]
        | ok fb =>
          simp [OCS.schedule_outreach_calls, hfb, he, Bind.bind, Except.bind,
            Except.map]
  refine ⟨h1, ?_⟩
  intro req planner h
  rw [h1]
  have hlen : ¬ req.discovered_leads.length = 0 := by
    simpa [List.length_eq_zero] using h
  simp only [OCS.create_fallback_call_schedule]
  rw [if_neg hlen]
  simp [OCS.statusOfCall, Except.map, Bind.bind, Except.bind]

unseal Nat.gcd Rat.add Rat.mul Rat.inv Rat.sub List.merge List.mergeSort in
/-- C10 witness: a concrete nonempty-leads request for which every planner
outcome yields the fallback schedule with `"partial_success"`. -/
theorem c10_witness :
    OCS.statusOfCall (OCS.schedule_outreach_calls reqTwoLeads (Except.ok none))
      = "partial_success" :=
  c10_amended.2 reqTwoLeads (Except.ok none) (by decide)

unseal Nat.gcd Rat.add Rat.mul Rat.inv Rat.sub List.merge List.mergeSort in
/-- C10 counterexample to "every invocation returns ... partial_success":
with an empty `discovered_leads` list the exception handler itself raises
`ZeroDivisionError` (`len(call_schedule)/len(discovered_leads)`), so the
call raises instead of returning a response. -/
theorem c10_counterexample :
    exceptErr (OCS.schedule_outreach_calls reqNoLeads (Except.ok (some someCallData)))
      = some PyErr.zeroDivisionError := by
  decide

/-! ### C7 -/

/-- The lead sort order is transitive. -/
theorem leadSortLE_trans (segs : List String) :
    ∀ a b c : OCS.DiscoveredLead, OCS.leadSortLE segs a b = true →
      OCS.leadSortLE segs b c = true → OCS.leadSortLE segs a c = true := by
  intro a b c hab hbc
  simp only [OCS.leadSortLE, decide_eq_true_eq] at hab hbc ⊢
  rcases hab with h1 | ⟨h1, h1s⟩ <;> rcases hbc with h2 | ⟨h2, h2s⟩
  · exact Or.inl (by omega)
  · exact Or.inl (by omega)
  · exact Or.inl (by omega)
  · exact Or.inr ⟨by omega, le_trans h2s h1s⟩

/-- The lead sort order is total. -/
theorem leadSortLE_total (segs : List String) :
    ∀ a b : OCS.DiscoveredLead,
      (OCS.leadSortLE segs a b || OCS.leadSortLE segs b a) = true := by
  intro a b
  simp only [OCS.leadSortLE, Bool.or_eq_true, decide_eq_true_eq]
  rcases lt_trichotomy (OCS.industryPriority segs a.industry)
      (OCS.industryPriority segs b.industry) with h | h | h
  · exact Or.inr (Or.inl h)
  · rcases le_total b.qualification_score a.qualification_score with hs | hs
    · exact Or.inl (Or.inr ⟨h, hs⟩)
    · exact Or.inr (Or.inr ⟨h.symm, hs⟩)
  · exact Or.inl (Or.inl h)

/-- The prioritized lead list is sorted under the composite key
(descending industry priority, then descending qualification score). -/
theorem prioritize_leads_sorted (leads : List OCS.DiscoveredLead)
    (criteria : OCS.PrioritizationCriteria) :
    List.Pairwise
      (fun a b => OCS.leadSortLE criteria.priority_segments a b = true)
      (OCS.prioritize_leads leads criteria).prioritized_leads := by
  simp only [OCS.prioritize_leads]
  exact List.sorted_mergeSort
    (fun a b c => leadSortLE_trans criteria.priority_segments a b c)
    (leadSortLE_total criteria.priority_segments) _

/-- Reading `n` successive elements of `l` starting at `idx` (by defaulted
indexing) is `take n` of `drop idx`, mapped. -/
theorem range_map_getD_eq_take {α β : Type} [Inhabited α] (l : List α)
    (idx n : ℕ) (hn : n ≤ l.length - idx) (f : α → β) :
    (List.range n).map (fun k => f (l.getD (idx + k) default))
      = ((l.drop idx).map f).take n := by
  apply List.ext_getElem
  · simp
    omega
  · intro j h1 h2
    have hj : j < n := by simpa using h1
    have hjl : idx + j < l.length := by omega
    have hdl : j < (l.drop idx).length := by simp; omega
    simp only [List.getElem_map, List.getElem_range, List.getElem_take]
    rw [List.getD_eq_getElem l default hjl, List.getElem_drop]

/-- A list equal to some `take` of `l` is `take` of its own length. -/
theorem eq_take_length_of_eq_take {α : Type} {xs l : List α}
    (h : ∃ c, xs = l.take c) : xs = l.take xs.length := by
  obtain ⟨c, rfl⟩ := h
  rcases le_total c l.length with hc | hc
  · rw [List.length_take, min_eq_left hc]
  · have h1 : l.take c = l := List.take_of_length_le hc
    rw [h1, List.take_length]

/-- The fallback scheduling loop consumes leads strictly in list order:
its emitted `lead_id` sequence is a prefix of the lead list's ids. -/
theorem fallbackCallGo_lead_ids (req : OCS.OutreachCallRequest)
    (leads : List OCS.DiscoveredLead) :
    ∀ (fuel : ℕ) (cur : ℤ) (idx sid : ℕ),
      ∃ c, (OCS.fallbackCallGo req leads fuel cur idx sid).map
          (fun it => it.lead_id)
        = ((leads.map (fun l => l.lead_id)).drop idx).take c := by
  intro fuel
  induction fuel with
  | zero =>
    intro cur idx sid
    exact ⟨0, by simp [OCS.fallbackCallGo]⟩
  | succ n ih =>
    intro cur idx sid
    rw [OCS.fallbackCallGo]
    split_ifs with hcond havoid
    · exact ih (cur + 1) idx sid
    · obtain ⟨c, hc⟩ := ih (cur + 1)
        (idx + OCS.fallbackDayCount req.calls_per_day (leads.length - idx))
        (sid + OCS.fallbackDayCount req.calls_per_day (leads.length - idx))
      refine ⟨OCS.fallbackDayCount req.calls_per_day (leads.length - idx) + c, ?_⟩
      rw [List.map_append, hc]
      have hday : ((List.range
          (OCS.fallbackDayCount req.calls_per_day (leads.length - idx))).map
            (fun k => OCS.mkCallItem (sid + k) (leads.getD (idx + k) default) cur
              (OCS.callTimeFor req.call_window_preferences.preferred_hours k))).map
              (fun it => it.lead_id)
          = ((leads.drop idx).map (fun l => l.lead_id)).take
              (OCS.fallbackDayCount req.calls_per_day (leads.length - idx)) := by
        rw [List.map_map]
        have hb : OCS.fallbackDayCount req.calls_per_day (leads.length - idx)
            ≤ leads.length - idx := by
          simp only [OCS.fallbackDayCount]
          omega
        have := range_map_getD_eq_take leads idx
          (OCS.fallbackDayCount req.calls_per_day (leads.length - idx)) hb
          (fun l => l.lead_id)
        simpa using this
      rw [hday, List.map_drop, List.take_add]
      congr 1
      rw [← List.drop_drop]
    · exact ⟨0, by simp⟩

/-- C7: in the fallback call schedule built from the prioritized leads, the
scheduled order is exactly the prioritized order (the emitted `lead_id`
sequence is the prefix of the prioritized ids of the schedule's length),
and that order respects the composite key: for any two positions `i < j`,
either lead `j` has strictly smaller industry priority (its industry
matches a strictly later entry of `priority_segments`, or none — an
unmatched industry has priority 0 and ranks last), or the priorities are
equal and lead `j` has at most the qualification score of lead `i`.  Only
leads passing the qualification-score filter enter `prioritized_leads`. -/
theorem c7_priority_ordering (req : OCS.OutreachCallRequest) :
    (∀ i j (hi : i < (OCS.prioritize_leads req.discovered_leads
          req.prioritization_criteria).prioritized_leads.length)
        (hj : j < (OCS.prioritize_leads req.discovered_leads
          req.prioritization_criteria).prioritized_leads.length),
      i < j →
      (OCS.industryPriority req.prioritization_criteria.priority_segments
          (((OCS.prioritize_leads req.discovered_leads
            req.prioritization_criteria).prioritized_leads.get ⟨j, hj⟩).industry)
        < OCS.industryPriority req.prioritization_criteria.priority_segments
          (((OCS.prioritize_leads req.discovered_leads
            req.prioritization_criteria).prioritized_leads.get ⟨i, hi⟩).industry)
       ∨ (OCS.industryPriority req.prioritization_criteria.priority_segments
            (((OCS.prioritize_leads req.discovered_leads
              req.prioritization_criteria).prioritized_leads.get ⟨i, hi⟩).industry)
          = OCS.industryPriority req.prioritization_criteria.priority_segments
            (((OCS.prioritize_leads req.discovered_leads
              req.prioritization_criteria).prioritized_leads.get ⟨j, hj⟩).industry)
         ∧ ((OCS.prioritize_leads req.discovered_leads
              req.prioritization_criteria).prioritized_leads.get
                ⟨j, hj⟩).qualification_score
            ≤ ((OCS.prioritize_leads req.discovered_leads
              req.prioritization_criteria).prioritized_leads.get
                ⟨i, hi⟩).qualification_score))) ∧
    (OCS.fallbackCallLoop req (OCS.prioritize_leads req.discovered_leads
        req.prioritization_criteria).prioritized_leads).map (fun it => it.lead_id)
      = (((OCS.prioritize_leads req.discovered_leads
          req.prioritization_criteria).prioritized_leads.map
            (fun l => l.lead_id)).take
          ((OCS.fallbackCallLoop req (OCS.prioritize_leads req.discovered_leads
            req.prioritization_criteria).prioritized_leads).map
              (fun it => it.lead_id)).length) := by
  constructor
  · intro i j hi hj hij
    have hp := prioritize_leads_sorted req.discovered_leads
      req.prioritization_criteria
    have := (List.pairwise_iff_getElem.mp hp) i j hi hj hij
    simpa only [OCS.leadSortLE, decide_eq_true_eq, List.get_eq_getElem] using this
  · apply eq_take_length_of_eq_take
    have := fallbackCallGo_lead_ids req
      (OCS.prioritize_leads req.discovered_leads
        req.prioritization_criteria).prioritized_leads
      ((req.campaign_duration.end_date - req.campaign_duration.start_date).toNat + 1)
      req.campaign_duration.start_date 0 1
    simpa [OCS.fallbackCallLoop] using this

unseal Nat.gcd Rat.add Rat.mul Rat.inv Rat.sub List.merge List.mergeSort in
/-- C7 witness: with `priority_segments = ["Technology", "Finance"]` and
leads Healthcare(95) and Technology(90), the Technology lead is ordered
before the Healthcare lead although its score is lower. -/
theorem c7_witness :
    OCS.industryPriority reqTwoLeads.prioritization_criteria.priority_segments
        (((OCS.prioritize_leads reqTwoLeads.discovered_leads
          reqTwoLeads.prioritization_criteria).prioritized_leads.get
            ⟨1, by decide⟩).industry)
      < OCS.industryPriority reqTwoLeads.prioritization_criteria.priority_segments
        (((OCS.prioritize_leads reqTwoLeads.discovered_leads
          reqTwoLeads.prioritization_criteria).prioritized_leads.get
            ⟨0, by decide⟩).industry)
     ∨ (OCS.industryPriority reqTwoLeads.prioritization_criteria.priority_segments
          (((OCS.prioritize_leads reqTwoLeads.discovered_leads
            reqTwoLeads.prioritization_criteria).prioritized_leads.get
              ⟨0, by decide⟩).industry)
        = OCS.industryPriority reqTwoLeads.prioritization_criteria.priority_segments
          (((OCS.prioritize_leads reqTwoLeads.discovered_leads
            reqTwoLeads.prioritization_criteria).prioritized_leads.get
              ⟨1, by decide⟩).industry)
       ∧ ((OCS.prioritize_leads reqTwoLeads.discovered_leads
            reqTwoLeads.prioritization_criteria).prioritized_leads.get
              ⟨1, by decide⟩).qualification_score
          ≤ ((OCS.prioritize_leads reqTwoLeads.discovered_leads
            reqTwoLeads.prioritization_criteria).prioritized_leads.get
              ⟨0, by decide⟩).qualification_score) :=
  (c7_priority_ordering reqTwoLeads).1 0 1 (by decide) (by decide) (by decide)

/-! ### C5 -/

/-- When any copies exist, every slot receives a copy (the general pool is
the full copy list). -/
theorem chooseCopy_isSome (copies : List CDS.GeneratedCopy)
    (choice : List CDS.GeneratedCopy → CDS.GeneratedCopy) (ct : String)
    (h : copies ≠ []) :
    ∃ c q, CDS.chooseCopy copies choice ct = (some c, q) := by
  have hg : ∃ c q, CDS.chooseCopyGeneral copies choice = (some c, q) := by
    simp only [CDS.chooseCopyGeneral]
    rw [if_neg (by simpa [List.isEmpty_iff] using h)]
    exact ⟨_, _, rfl⟩
  simp only [CDS.chooseCopy]
  cases hp : CDS.copyPoolFor copies ct with
  | none => exact hg
  | some pool =>
    by_cases hpe : pool.isEmpty
    · simpa [hpe] using hg
    · refine ⟨choice pool, 2 / 5, ?_⟩
      simp [hpe]

/-- Filtering out the images whose id lies in the first `k` ids leaves
exactly the images from position `k` on (ids pairwise distinct). -/
theorem filter_not_mem_map_take {α β : Type} [DecidableEq β] :
    ∀ (l : List α) (f : α → β), (l.map f).Nodup → ∀ (k : ℕ),
      l.filter (fun a => decide (f a ∉ (l.take k).map f)) = l.drop k := by
  intro l
  induction l with
  | nil => intro f _ k; simp
  | cons x xs ih =>
    intro f hnd k
    rw [List.map_cons, List.nodup_cons] at hnd
    obtain ⟨hx, hnd'⟩ := hnd
    cases k with
    | zero => simp
    | succ k =>
      simp only [List.take_succ_cons, List.map_cons, List.drop_succ_cons]
      rw [List.filter_cons]
      have hxf : (decide (f x ∉ f x :: (xs.take k).map f)) = false := by simp
      rw [hxf]
      simp only [Bool.false_eq_true, if_false]
      rw [List.filter_congr (q := fun a => decide (f a ∉ (xs.take k).map f))]
      · exact ih f hnd' k
      · intro a ha
        have : f a ≠ f x := by
          intro hcontra
          exact hx (hcontra ▸ List.mem_map_of_mem f ha)
        simp [this]

/-- First-pass image assignment: while `k` images have been used
(`k < N`), a single-image slot receives exactly image `k` and marks it
used. -/
theorem assignImages_firstPass (images : List CDS.GeneratedImage)
    (hnodup : (images.map (fun i => i.image_id)).Nodup) (k : ℕ)
    (hk : k < images.length) (cycle_count : ℕ) :
    CDS.assignImages images
        (((images.take k).map (fun i => i.image_id)).reverse) cycle_count 1
      = ([images.getD k default],
          ((images.take (k + 1)).map (fun i => i.image_id)).reverse) := by
  have himgs : images ≠ [] := by
    intro hcontra
    rw [hcontra] at hk
    simp at hk
  simp only [CDS.assignImages]
  rw [if_neg (by simpa [List.isEmpty_iff] using himgs)]
  have hfilter : images.filter (fun img =>
      !((((images.take k).map (fun i => i.image_id)).reverse).contains
        img.image_id)) = images.drop k := by
    rw [List.filter_congr (q := fun img =>
      decide (img.image_id ∉ (images.take k).map (fun i => i.image_id)))]
    · exact filter_not_mem_map_take images _ hnodup k
    · intro a _
      simp
  rw [hfilter]
  have hdropne : images.drop k ≠ [] := by
    rw [Ne, List.drop_eq_nil_iff]
    omega
  have hdropb : (!(images.drop k).isEmpty) = true := by
    simpa using hdropne
  rw [if_pos hdropb]
  have hlen : (images.drop k).length = images.length - k := List.length_drop k images
  have hmin : min 1 (images.drop k).length = 1 := by
    rw [hlen]
    omega
  rw [hmin]
  have hdropcons : images.drop k = images.get ⟨k, hk⟩ :: images.drop (k + 1) := by
    simp only [List.get_eq_getElem]
    exact List.drop_eq_getElem_cons hk
  rw [hdropcons]
  simp only [List.take_succ_cons, List.take_zero]
  have hgetD : images.getD k default = images.get ⟨k, hk⟩ := by
    rw [List.getD_eq_getElem images default hk]
    rfl
  rw [hgetD]
  have hnotmem : (images.get ⟨k, hk⟩).image_id
      ∉ ((images.take k).map (fun i => i.image_id)).reverse := by
    rw [List.mem_reverse]
    have hsplit : images.map (fun i => i.image_id)
        = (images.take k).map (fun i => i.image_id)
          ++ (images.drop k).map (fun i => i.image_id) := by
      rw [← List.map_append, List.take_append_drop]
    rw [hsplit] at hnodup
    have hdisj := (List.nodup_append.mp hnodup).2.2
    intro hmem
    refine hdisj hmem ?_
    rw [hdropcons, List.map_cons]
    exact List.mem_cons_self _ _
  simp only [List.foldl_cons, List.foldl_nil, CDS.addUsedId]
  rw [if_neg hnotmem]
  have htake : images.take (k + 1) = images.take k ++ [images.get ⟨k, hk⟩] := by
    rw [List.take_succ, List.getElem?_eq_getElem hk]
    rfl
  rw [htake, List.map_append, List.reverse_append]
  simp

/-- Steady-state image assignment: once every pool image is used, a
single-image slot receives image `cycle_count % N` and the used set is
unchanged. -/
theorem assignImages_cycle (images : List CDS.GeneratedImage)
    (himgs : images ≠ []) (cycle_count : ℕ) :
    CDS.assignImages images ((images.map (fun i => i.image_id)).reverse)
        cycle_count 1
      = ([images.getD (cycle_count % images.length) default],
          (images.map (fun i => i.image_id)).reverse) := by
  have hN : 0 < images.length := List.length_pos.mpr himgs
  simp only [CDS.assignImages]
  rw [if_neg (by simpa [List.isEmpty_iff] using himgs)]
  have hfilter : images.filter (fun img =>
      !(((images.map (fun i => i.image_id)).reverse).contains img.image_id))
      = [] := by
    rw [List.filter_eq_nil_iff]
    intro a ha
    simp [List.mem_map]
    exact ⟨a, ha, rfl⟩
  rw [hfilter]
  simp only [List.isEmpty_nil, Bool.not_true, Bool.false_eq_true, if_false]
  have hlenle : images.length ≤ ((images.map (fun i => i.image_id)).reverse).length := by
    simp
  rw [if_pos hlenle]
  have hmin : min 1 images.length = 1 := by omega
  rw [hmin]
  have hrange : List.range 1 = [0] := rfl
  rw [hrange]
  simp only [List.map_cons, List.map_nil, Nat.add_zero]
  rw [Nat.mod_mod_of_dvd cycle_count dvd_rfl]

/-- One slot step of `match_content_to_timeline` in the C5 scenario
(nonempty copies, single-image platform, `k` slots already matched): the
slot is matched with image `k % N` and the used set advances. -/
theorem matchStep_spec (copies : List CDS.GeneratedCopy)
    (choice : List CDS.GeneratedCopy → CDS.GeneratedCopy)
    (images : List CDS.GeneratedImage) (hcopies : copies ≠ [])
    (himgs : images ≠ [])
    (hnodup : (images.map (fun i => i.image_id)).Nodup)
    (st : CDS.MatchState) (slot : CDS.OptimizedTimeline)
    (hplat : CDS.slotMaxImages slot.platform = 1) (k : ℕ)
    (hused : st.used_image_ids
      = ((images.take (min k images.length)).map (fun i => i.image_id)).reverse)
    (hcnt : (st.matched_slots.filter
      (fun m => !m.assigned_images.isEmpty)).length = k) :
    ∃ c q, CDS.matchStep copies choice images st slot =
      { used_image_ids := ((images.take (min (k + 1) images.length)).map
          (fun i => i.image_id)).reverse
        matched_slots := st.matched_slots ++
          [{ slot := slot, assigned_copy := some c
             assigned_images := [images.getD (k % images.length) default]
             matching_score := q }]
        unmatched_slots := st.unmatched_slots
        copies_used := st.copies_used + 1
        images_used := st.images_used + 1 } := by
  obtain ⟨c, q, hcq⟩ :=
    chooseCopy_isSome copies choice (strLower slot.content_type) hcopies
  refine ⟨c, q + 3 / 10, ?_⟩
  simp only [CDS.matchStep, hcq, hplat, hcnt]
  rcases lt_or_ge k images.length with hk | hk
  · rw [hused, min_eq_left (le_of_lt hk),
      assignImages_firstPass images hnodup k hk]
    rw [min_eq_left (by omega : k + 1 ≤ images.length)]
    simp [Nat.mod_eq_of_lt hk]
  · have htakeN : images.take images.length = images := List.take_length images
    rw [hused, min_eq_right hk, htakeN, assignImages_cycle images himgs k]
    rw [min_eq_right (by omega : images.length ≤ k + 1), htakeN]
    simp

/-- Loop invariant of `match_content_to_timeline` in the C5 scenario:
after processing the slots, the sequence of per-slot image assignments is
`[images[k % N]], [images[(k+1) % N]], …` continuing from the number `k`
of already-matched slots. -/
theorem matchFold_assigned (copies : List CDS.GeneratedCopy)
    (choice : List CDS.GeneratedCopy → CDS.GeneratedCopy)
    (images : List CDS.GeneratedImage) (hcopies : copies ≠ [])
    (himgs : images ≠ [])
    (hnodup : (images.map (fun i => i.image_id)).Nodup) :
    ∀ (slots : List CDS.OptimizedTimeline),
      (∀ s ∈ slots, CDS.slotMaxImages s.platform = 1) →
      ∀ (st : CDS.MatchState) (k : ℕ),
      st.used_image_ids
        = ((images.take (min k images.length)).map (fun i => i.image_id)).reverse →
      (st.matched_slots.filter (fun m => !m.assigned_images.isEmpty)).length = k →
      ((slots.foldl (CDS.matchStep copies choice images) st).matched_slots).map
          (fun m => m.assigned_images)
        = (st.matched_slots.map (fun m => m.assigned_images))
          ++ (List.range slots.length).map
              (fun j => [images.getD ((k + j) % images.length) default]) := by
  intro slots
  induction slots with
  | nil =>
    intro _ st k hused hcnt
    simp
  | cons s rest ih =>
    intro hplat st k hused hcnt
    obtain ⟨c, q, hstep⟩ := matchStep_spec copies choice images hcopies himgs
      hnodup st s (hplat s (by simp)) k hused hcnt
    rw [List.foldl_cons, hstep]
    have hplat' : ∀ x ∈ rest, CDS.slotMaxImages x.platform = 1 :=
      fun x hx => hplat x (by simp [hx])
    have hcnt' : ((st.matched_slots ++
        [{ slot := s, assigned_copy := some c
           assigned_images := [images.getD (k % images.length) default]
           matching_score := q : CDS.MatchedSlot }]).filter
        (fun m => !m.assigned_images.isEmpty)).length = k + 1 := by
      rw [List.filter_append, List.length_append, hcnt]
      simp
    have hrec := ih hplat'
      { used_image_ids := ((images.take (min (k + 1) images.length)).map
          (fun i => i.image_id)).reverse
        matched_slots := st.matched_slots ++
          [{ slot := s, assigned_copy := some c
             assigned_images := [images.getD (k % images.length) default]
             matching_score := q }]
        unmatched_slots := st.unmatched_slots
        copies_used := st.copies_used + 1
        images_used := st.images_used + 1 }
      (k + 1) rfl hcnt'
    rw [hrec]
    have hshift : (List.range (rest.length + 1)).map
        (fun j => [images.getD ((k + j) % images.length) default])
        = [images.getD (k % images.length) default] ::
            (List.range rest.length).map
              (fun j => [images.getD ((k + 1 + j) % images.length) default]) := by
      have hhead : [images.getD ((k + 0) % images.length) default]
          = [images.getD (k % images.length) default] := by
        rw [Nat.add_zero]
      have htail : ((List.range rest.length).map Nat.succ).map
            (fun j => [images.getD ((k + j) % images.length) default])
          = (List.range rest.length).map
            (fun j => [images.getD ((k + 1 + j) % images.length) default]) := by
        rw [List.map_map]
        apply List.map_congr_left
        intro j _
        simp only [Function.comp_apply]
        have h1 : k + Nat.succ j = k + 1 + j := by omega
        rw [h1]
      rw [List.range_succ_eq_map, List.map_cons, hhead, htail]
    simp only [List.length_cons, List.map_append, List.map_cons, List.map_nil]
    rw [List.append_assoc, hshift]
    simp

/-- Flattening singleton assignments recovers the plain image sequence. -/
theorem flatten_map_singleton {α β : Type} (l : List α) (g : α → β) :
    (l.map (fun x => [g x])).flatten = l.map g := by
  induction l with
  | nil => simp
  | cons x xs ih => simp [ih]

/-- Counting an image of a duplicate-free pool among defaulted lookups
is counting its index. -/
theorem count_map_getD (images : List CDS.GeneratedImage)
    (hnd : images.Nodup) (t : ℕ) (ht : t < images.length) :
    ∀ (l2 : List ℕ), (∀ x ∈ l2, x < images.length) →
      ((l2.map (fun x => images.getD x default)).count
          (images.getD t default))
        = l2.count t := by
  intro l2
  induction l2 with
  | nil => intro _; simp
  | cons x xs ih =>
    intro hmem
    have hx : x < images.length := hmem x (by simp)
    have hxs : ∀ y ∈ xs, y < images.length := fun y hy => hmem y (by simp [hy])
    rw [List.map_cons, List.count_cons, List.count_cons, ih hxs]
    have hiff : (images.getD x default == images.getD t default) = (x == t) := by
      rw [List.getD_eq_getElem images default hx,
        List.getD_eq_getElem images default ht]
      by_cases hxt : x = t
      · subst hxt
        simp
      · have : images[x] ≠ images[t] := by
          intro hcontra
          exact hxt ((List.Nodup.getElem_inj_iff hnd).mp hcontra)
        simp [this, hxt]
    rw [hiff]

/-- The count of residue `t` among `0 % N, 1 % N, …, (M-1) % N`. -/
theorem count_range_mod (N t : ℕ) (hN : 0 < N) (ht : t < N) :
    ∀ M : ℕ, ((List.range M).map (fun j => j % N)).count t
      = M / N + (if t < M % N then 1 else 0) := by
  intro M
  induction M with
  | zero => simp [Nat.zero_div, Nat.zero_mod, Nat.lt_irrefl, ht]
  | succ M ih =>
    rw [List.range_succ, List.map_append, List.count_append, ih]
    have hd := Nat.div_add_mod M N
    have hm := Nat.mod_lt M hN
    rcases Nat.lt_or_ge (M % N + 1) N with hr | hr
    · have hM1 : M + 1 = N * (M / N) + (M % N + 1) := by omega
      have hdiv : (M + 1) / N = M / N := by
        rw [hM1, Nat.mul_add_div hN, Nat.div_eq_of_lt hr, Nat.add_zero]
      have hmod : (M + 1) % N = M % N + 1 := by
        rw [hM1, Nat.mul_add_mod, Nat.mod_eq_of_lt hr]
      rw [hdiv, hmod]
      simp only [List.map_cons, List.map_nil, List.count_cons, List.count_nil]
      clear hd hdiv hmod hM1 ih
      by_cases hMt : M % N = t
      · rw [hMt]
        simp
      · have hbeq : (M % N == t) = false := by simp [hMt]
        rw [hbeq]
        by_cases h : t < M % N
        · rw [if_pos h, if_pos (Nat.lt_succ_of_lt h)]
          simp
        · have hns : ¬ t < M % N + 1 :=
            fun hc => h (Nat.lt_of_le_of_ne (Nat.lt_succ_iff.mp hc) (fun he => hMt he.symm))
          rw [if_neg h, if_neg hns]
          simp
    · have hreq : M % N + 1 = N := by omega
      have hM1 : M + 1 = N * (M / N + 1) := by
        have : N * (M / N + 1) = N * (M / N) + N := by ring
        omega
      have hdiv : (M + 1) / N = M / N + 1 := by
        rw [hM1, Nat.mul_div_cancel_left _ hN]
      have hmod : (M + 1) % N = 0 := by
        rw [hM1, Nat.mul_mod_right]
      rw [hdiv, hmod]
      simp only [List.map_cons, List.map_nil, List.count_cons, List.count_nil]
      clear hd hdiv hmod hM1 ih
      have hnt : ¬ t < 0 := Nat.not_lt_zero t
      rw [if_neg hnt]
      by_cases hMt : M % N = t
      · rw [hMt]
        simp
      · have hbeq : (M % N == t) = false := by simp [hMt]
        rw [hbeq]
        have htn : t < M % N + 1 := by rw [hreq]; exact ht
        have hcond : t < M % N := Nat.lt_of_le_of_ne (Nat.lt_succ_iff.mp htn) (fun he => hMt he.symm)
        rw [if_pos hcond]
        simp

/-- Upper count bound: `M / N` plus the residue indicator is at most
`⌈M / N⌉ = (M + N - 1) / N`. -/
theorem count_upper_aux (N M t : ℕ) (hN : 0 < N) :
    M / N + (if t < M % N then 1 else 0) ≤ (M + N - 1) / N := by
  by_cases hr0 : M % N = 0
  · rw [hr0, if_neg (Nat.not_lt_zero t), Nat.add_zero]
    exact Nat.div_le_div_right (by omega)
  · have hd := Nat.div_add_mod M N
    have hm := Nat.mod_lt M hN
    have hM1 : M + N - 1 = N * (M / N + 1) + (M % N - 1) := by
      have hexp : N * (M / N + 1) = N * (M / N) + N := by ring
      omega
    have htrans : (M + N - 1) / N = M / N + 1 + (M % N - 1) / N := by
      rw [hM1, Nat.mul_add_div hN]
    have hsmall : (M % N - 1) / N = 0 := Nat.div_eq_of_lt (by omega)
    rw [htrans, hsmall, Nat.add_zero]
    clear hd hM1 htrans hsmall hm
    split_ifs <;> omega

/-- C5: with a duplicate-free nonempty image pool, nonempty copies, and
single-image slots outnumbering the images, `match_content_to_timeline`
matches every slot; the first `N = len(images)` matched slots carry the `N`
pool images in order, each exactly once (first pass: no reuse before every
image is used), and across all `M = len(slots)` slots each image appears at
least `⌊M/N⌋` and at most `⌈M/N⌉ = (M+N-1)/N` times (round-robin cycling
from `cycle_count % N`). -/
theorem c5_use_once_then_cycle
    (slots : List CDS.OptimizedTimeline) (copies : List CDS.GeneratedCopy)
    (images : List CDS.GeneratedImage)
    (choice : List CDS.GeneratedCopy → CDS.GeneratedCopy)
    (hcopies : copies ≠ []) (himgs : images ≠ [])
    (hnodup : (images.map (fun i => i.image_id)).Nodup)
    (hplat : ∀ s ∈ slots, CDS.slotMaxImages s.platform = 1)
    (hMN : images.length < slots.length) :
    ((CDS.match_content_to_timeline slots copies (some images)
        choice).matched_slots.map (fun m => m.assigned_images)).take images.length
      = images.map (fun img => [img])
    ∧ ∀ img ∈ images,
        slots.length / images.length
          ≤ ((CDS.match_content_to_timeline slots copies (some images)
              choice).matched_slots.map (fun m => m.assigned_images)).flatten.count img
        ∧ ((CDS.match_content_to_timeline slots copies (some images)
            choice).matched_slots.map (fun m => m.assigned_images)).flatten.count img
          ≤ (slots.length + images.length - 1) / images.length := by
  have hN : 0 < images.length := List.length_pos.mpr himgs
  have hfold := matchFold_assigned copies choice images hcopies himgs hnodup
    slots hplat
    { used_image_ids := [], matched_slots := [], unmatched_slots := []
      copies_used := 0, images_used := 0 } 0 (by simp) (by simp)
  have hlists : ((CDS.match_content_to_timeline slots copies (some images)
      choice).matched_slots.map (fun m => m.assigned_images))
      = (List.range slots.length).map
          (fun j => [images.getD (j % images.length) default]) := by
    simp only [CDS.match_content_to_timeline, Option.getD_some]
    rw [hfold]
    simp
  constructor
  · rw [hlists]
    have htake : ((List.range slots.length).map
        (fun j => [images.getD (j % images.length) default])).take images.length
        = (List.range images.length).map
            (fun j => [images.getD (j % images.length) default]) := by
      rw [← List.map_take, List.take_range, Nat.min_eq_left (le_of_lt hMN)]
    rw [htake]
    apply List.ext_getElem
    · simp
    · intro i h1 h2
      have hi : i < images.length := by simpa using h2
      simp only [List.getElem_map, List.getElem_range]
      rw [Nat.mod_eq_of_lt hi, List.getD_eq_getElem images default hi]
  · intro img hmem
    obtain ⟨t, ht, himg⟩ := List.mem_iff_getElem.mp hmem
    have hnd : images.Nodup := List.Nodup.of_map (fun i => i.image_id) hnodup
    have hmmem : ∀ x ∈ (List.range slots.length).map
        (fun j => j % images.length), x < images.length := by
      intro x hx
      obtain ⟨j, _, hj⟩ := List.mem_map.mp hx
      rw [← hj]
      exact Nat.mod_lt j hN
    have hcomp : (List.range slots.length).map
          (fun j => images.getD (j % images.length) default)
        = ((List.range slots.length).map (fun j => j % images.length)).map
            (fun x => images.getD x default) := by
      rw [List.map_map]
      rfl
    have hcount : ((List.range slots.length).map
          (fun j => images.getD (j % images.length) default)).count img
        = slots.length / images.length
          + (if t < slots.length % images.length then 1 else 0) := by
      rw [← himg, ← List.getD_eq_getElem images default ht, hcomp,
        count_map_getD images hnd t ht _ hmmem,
        count_range_mod images.length t hN ht slots.length]
    rw [hlists, flatten_map_singleton, hcount]
    constructor
    · exact Nat.le_add_right _ _
    · exact count_upper_aux images.length slots.length t hN

/-- Witness for C5: the spec's example scenario — 5 images, 8 LinkedIn
slots, a nonempty copy pool — satisfies every hypothesis of
`c5_use_once_then_cycle`, so its conclusion holds there. -/
theorem c5_witness :
    ((CDS.match_content_to_timeline eightSlots oneCopy (some fiveImages)
        headChoice).matched_slots.map (fun m => m.assigned_images)).take
        fiveImages.length
      = fiveImages.map (fun img => [img])
    ∧ ∀ img ∈ fiveImages,
        eightSlots.length / fiveImages.length
          ≤ ((CDS.match_content_to_timeline eightSlots oneCopy (some fiveImages)
              headChoice).matched_slots.map (fun m => m.assigned_images)).flatten.count img
        ∧ ((CDS.match_content_to_timeline eightSlots oneCopy (some fiveImages)
            headChoice).matched_slots.map (fun m => m.assigned_images)).flatten.count img
          ≤ (eightSlots.length + fiveImages.length - 1) / fiveImages.length :=
  c5_use_once_then_cycle eightSlots oneCopy fiveImages headChoice
    (by decide) (by decide) (by decide) (by decide) (by decide)
